import Mathlib

/-!
Shallow embedding of the dyeing-techniques engine (auto-crop, value noise,
technique masks, tint/compositing, cover-fit sampler) and proofs about it.
JavaScript numbers are modelled as real numbers (exact arithmetic); the
32-bit integer operations that JavaScript's bitwise operators perform are
modelled explicitly modulo 2^32.
-/

noncomputable section

namespace Dye

/-- clamp01 from the source: `Math.max(0, Math.min(1, x))`. -/
def clamp01 (x : ℝ) : ℝ := max 0 (min 1 x)

/-- clamp255 from the source: `Math.max(0, Math.min(255, x))`. -/
def clamp255 (x : ℝ) : ℝ := max 0 (min 255 x)

/-- JavaScript `ToUint32` on an (ideal-arithmetic) number: truncate to an
integer and reduce modulo 2^32.  For the integer values the engine feeds
into its bitwise operators this agrees with the JavaScript semantics. -/
def jsToUint32 (x : ℝ) : ℕ := ((⌊x⌋ % 4294967296 : ℤ)).toNat

/-- JavaScript 32-bit xor `a ^ b` (operands converted with `ToInt32`,
result re-interpreted as a signed 32-bit integer).  The bit pattern of
`ToInt32 x` equals the bit pattern of `ToUint32 x`, so the xor is taken on
the unsigned patterns and the result is sign-extended. -/
def jsXor (a b : ℝ) : ℝ :=
  let n := Nat.xor (jsToUint32 a) (jsToUint32 b)
  if n < 2147483648 then (n : ℝ) else (n : ℝ) - 4294967296

/-- The corner hash inside `valueNoise2D`:
`h = ix*374761393 + iy*668265263 + seed*69069;`
`h = (h ^ (h >>> 13)) * 1274126177;`
`return ((h ^ (h >>> 16)) >>> 0) / 4294967296;`
All bitwise steps are computed on the unsigned 32-bit patterns; the signed
reinterpretation JavaScript performs before the multiplication does not
change the product modulo 2^32. -/
def vnHash (ix iy seed : ℝ) : ℝ :=
  let h0 : ℕ := jsToUint32 (ix * 374761393 + iy * 668265263 + seed * 69069)
  let h1 : ℕ := (Nat.xor h0 (h0 >>> 13)) * 1274126177 % 4294967296
  let h2 : ℕ := Nat.xor h1 (h1 >>> 16)
  (h2 : ℝ) / 4294967296

/-- valueNoise2D from the source: bilinear smoothstep interpolation of the
corner hashes over the integer lattice cell containing `(x, y)`. -/
def valueNoise2D (x y seed : ℝ) : ℝ :=
  let xi : ℝ := (⌊x⌋ : ℝ)
  let yi : ℝ := (⌊y⌋ : ℝ)
  let xf := x - xi
  let yf := y - yi
  let v00 := vnHash xi yi seed
  let v10 := vnHash (xi + 1) yi seed
  let v01 := vnHash xi (yi + 1) seed
  let v11 := vnHash (xi + 1) (yi + 1) seed
  let u := xf * xf * (3 - 2 * xf)
  let v := yf * yf * (3 - 2 * yf)
  let a := v00 * (1 - u) + v10 * u
  let b := v01 * (1 - u) + v11 * u
  a * (1 - v) + b * v

/-- luminance from the source (ITU-R BT.709 weights, normalised by 255). -/
def luminance (r g b : ℝ) : ℝ := (0.2126 * r + 0.7152 * g + 0.0722 * b) / 255

/-- An RGB colour value (real-valued channels). -/
structure RGBv where
  r : ℝ
  g : ℝ
  b : ℝ

/-- dyeTintedColor from the source: scale the dye colour by
`shade = 0.35 + 0.65 * L` and clamp each channel to `[0, 255]`. -/
def dyeTintedColor (baseR baseG baseB dyeR dyeG dyeB : ℝ) : RGBv :=
  let L := luminance baseR baseG baseB
  let shade := 0.35 + 0.65 * L
  ⟨clamp255 (dyeR * shade), clamp255 (dyeG * shade), clamp255 (dyeB * shade)⟩

/-- Value of one hexadecimal digit, as `parseInt(_, 16)` reads it
(case-insensitive); characters outside `[0-9a-fA-F]` do not occur in the
inputs the engine parses. -/
def hexDigitVal (c : Char) : ℕ :=
  if '0' ≤ c ∧ c ≤ '9' then c.toNat - 48
  else if 'a' ≤ c ∧ c ≤ 'f' then c.toNat - 87
  else if 'A' ≤ c ∧ c ≤ 'F' then c.toNat - 55
  else 0

/-- `parseInt(s, 16)` on a valid hexadecimal digit string. -/
def parseHexNat (s : List Char) : ℕ :=
  s.foldl (fun acc c => acc * 16 + hexDigitVal c) 0

/-- Drop the first `#` character, as `String.replace("#", "")` does with a
string pattern (first occurrence only). -/
def dropFirstHash : List Char → List Char
  | [] => []
  | c :: cs => if c = '#' then cs else c :: dropFirstHash cs

/-- Leading/trailing-whitespace trim on a character list (the `trim()`
call of the source). -/
def trimChars (s : List Char) : List Char :=
  ((s.dropWhile Char.isWhitespace).reverse.dropWhile Char.isWhitespace).reverse

/-- hexToRgb from the source: strip a leading `#`, trim, expand a 3-digit
form by doubling each digit, parse as hexadecimal, and split into byte
channels. -/
def hexToRgb (hex : String) : ℕ × ℕ × ℕ :=
  let v := trimChars (dropFirstHash hex.data)
  let full := if v.length = 3 then v.flatMap (fun c => [c, c]) else v
  let n := parseHexNat full
  ((n >>> 16) &&& 255, (n >>> 8) &&& 255, n &&& 255)

/-! Basic bounds for the primitives. -/

theorem clamp01_nonneg (x : ℝ) : 0 ≤ clamp01 x := le_max_left 0 _

theorem clamp01_le_one (x : ℝ) : clamp01 x ≤ 1 :=
  max_le (by norm_num) (min_le_left 1 x)

theorem clamp01_mem (x : ℝ) : 0 ≤ clamp01 x ∧ clamp01 x ≤ 1 :=
  ⟨clamp01_nonneg x, clamp01_le_one x⟩

theorem clamp01_of_mem (x : ℝ) (h0 : 0 ≤ x) (h1 : x ≤ 1) : clamp01 x = x := by
  unfold clamp01
  rw [min_eq_right h1, max_eq_right h0]

theorem clamp255_nonneg (x : ℝ) : 0 ≤ clamp255 x := le_max_left 0 _

theorem clamp255_le (x : ℝ) : clamp255 x ≤ 255 :=
  max_le (by norm_num) (min_le_left 255 x)

theorem clamp255_of_mem (x : ℝ) (h0 : 0 ≤ x) (h1 : x ≤ 255) : clamp255 x = x := by
  unfold clamp255
  rw [min_eq_right h1, max_eq_right h0]

theorem jsToUint32_lt (x : ℝ) : jsToUint32 x < 4294967296 := by
  unfold jsToUint32
  have h := Int.emod_lt_of_pos ⌊x⌋ (b := 4294967296) (by norm_num)
  omega

theorem vnHash_nonneg (ix iy seed : ℝ) : 0 ≤ vnHash ix iy seed := by
  unfold vnHash
  positivity

theorem natShiftRight_le (n k : ℕ) : n >>> k ≤ n := by
  rw [Nat.shiftRight_eq_div_pow]
  exact Nat.div_le_self _ _

/-- Xoring a 32-bit value with a right shift of a 32-bit value stays below
2^32. -/
theorem xorShift_lt {n : ℕ} (h : n < 4294967296) (k : ℕ) :
    Nat.xor n (n >>> k) < 4294967296 := by
  have h2 : n >>> k < 4294967296 := lt_of_le_of_lt (natShiftRight_le n k) h
  have e : (4294967296 : ℕ) = 2 ^ 32 := by norm_num
  rw [e] at h h2 ⊢
  exact Nat.xor_lt_two_pow h h2

theorem vnHash_lt_one (ix iy seed : ℝ) : vnHash ix iy seed < 1 := by
  simp only [vnHash]
  rw [div_lt_one (by norm_num)]
  have hlt := xorShift_lt (n := (Nat.xor (jsToUint32 (ix * 374761393 + iy * 668265263 + seed * 69069))
      ((jsToUint32 (ix * 374761393 + iy * 668265263 + seed * 69069)) >>> 13)) * 1274126177 % 4294967296)
    (Nat.mod_lt _ (by norm_num)) 16
  exact_mod_cast hlt

/-- A convex combination with weight in `[0,1]` of two values in `[0,1)`
stays in `[0,1)`. -/
theorem convex_mem {a b t : ℝ} (ha : 0 ≤ a ∧ a < 1) (hb : 0 ≤ b ∧ b < 1)
    (ht : 0 ≤ t ∧ t ≤ 1) : 0 ≤ a * (1 - t) + b * t ∧ a * (1 - t) + b * t < 1 := by
  obtain ⟨ha0, ha1⟩ := ha
  obtain ⟨hb0, hb1⟩ := hb
  obtain ⟨ht0, ht1⟩ := ht
  constructor
  · have h1 : 0 ≤ a * (1 - t) := mul_nonneg ha0 (by linarith)
    have h2 : 0 ≤ b * t := mul_nonneg hb0 ht0
    linarith
  · rcases eq_or_lt_of_le ht1 with h | h
    · subst h
      simp only [sub_self, mul_zero, mul_one, zero_add]
      exact hb1
    · have h1 : a * (1 - t) < 1 * (1 - t) := by
        apply mul_lt_mul_of_pos_right ha1
        linarith
      have h2 : b * t ≤ 1 * t := mul_le_mul_of_nonneg_right (le_of_lt hb1) ht0
      nlinarith

/-- The fractional offset used by `valueNoise2D` lies in `[0,1)`, and the
smoothstep polynomial maps `[0,1)` into `[0,1]`. -/
theorem smoothstep_mem {t : ℝ} (h0 : 0 ≤ t) (h1 : t < 1) :
    0 ≤ t * t * (3 - 2 * t) ∧ t * t * (3 - 2 * t) ≤ 1 := by
  constructor
  · have : (0:ℝ) < 3 - 2 * t := by linarith
    positivity
  · nlinarith [sq_nonneg (1 - t), sq_nonneg t, mul_nonneg h0 h0]

theorem valueNoise2D_mem (x y seed : ℝ) :
    0 ≤ valueNoise2D x y seed ∧ valueNoise2D x y seed < 1 := by
  unfold valueNoise2D
  have hxf0 : 0 ≤ x - (⌊x⌋ : ℝ) := sub_nonneg.mpr (Int.floor_le x)
  have hxf1 : x - (⌊x⌋ : ℝ) < 1 := by
    have := Int.lt_floor_add_one x
    linarith
  have hyf0 : 0 ≤ y - (⌊y⌋ : ℝ) := sub_nonneg.mpr (Int.floor_le y)
  have hyf1 : y - (⌊y⌋ : ℝ) < 1 := by
    have := Int.lt_floor_add_one y
    linarith
  have hu := smoothstep_mem hxf0 hxf1
  have hv := smoothstep_mem hyf0 hyf1
  have hA := convex_mem
    ⟨vnHash_nonneg (⌊x⌋ : ℝ) (⌊y⌋ : ℝ) seed, vnHash_lt_one _ _ _⟩
    ⟨vnHash_nonneg ((⌊x⌋ : ℝ) + 1) (⌊y⌋ : ℝ) seed, vnHash_lt_one _ _ _⟩ hu
  have hB := convex_mem
    ⟨vnHash_nonneg (⌊x⌋ : ℝ) ((⌊y⌋ : ℝ) + 1) seed, vnHash_lt_one _ _ _⟩
    ⟨vnHash_nonneg ((⌊x⌋ : ℝ) + 1) ((⌊y⌋ : ℝ) + 1) seed, vnHash_lt_one _ _ _⟩ hu
  exact convex_mem hA hB hv

/-- Math.atan2(y, x), modelled by the argument of the complex number
`x + y*I` (both have range `(-π, π]` and agree on ℝ² minus conventions at
the origin, where the engine's value is irrelevant to every claim). -/
def atan2 (y x : ℝ) : ℝ := Complex.arg ⟨x, y⟩

/-- JavaScript truncation toward zero (used by the `%` operator). -/
def jsTrunc (x : ℝ) : ℝ := if 0 ≤ x then (⌊x⌋ : ℝ) else -((⌊-x⌋ : ℝ))

/-- JavaScript `%` on numbers: `a - b * trunc(a / b)`. -/
def jsMod (a b : ℝ) : ℝ := a - b * jsTrunc (a / b)

/-- Fabric-grain factor shared by all techniques (source lines 235-240):
two value-noise samples at ≈60× and ≈140× scale with seed offsets 11 and
29, combined as `0.85 + 0.15*(0.6*fiber + 0.4*fiber2)`. -/
def fabricGrainOf (x y w h scale seed : ℝ) : ℝ :=
  let nx := x / max 1 w
  let ny := y / max 1 h
  let fiber := valueNoise2D (nx * 60 * scale) (ny * 60 * scale) (seed + 11)
  let fiber2 := valueNoise2D (nx * 140 * scale) (ny * 140 * scale) (seed + 29)
  0.85 + 0.15 * (0.6 * fiber + 0.4 * fiber2)

/-- Cell size of the bandhaniDots grid:
`Math.max(18, 70 * (1 / Math.max(0.25, scale)))`. -/
def bandhaniCell (scale : ℝ) : ℝ := max 18 (70 * (1 / max 0.25 scale))

/-- Distance from `(x, y)` to the jittered dot centre of its bandhaniDots
cell (source lines 267-280). -/
def bandhaniD (x y scale seed : ℝ) : ℝ :=
  let cell := bandhaniCell scale
  let gx : ℝ := (⌊x / cell⌋ : ℝ)
  let gy : ℝ := (⌊y / cell⌋ : ℝ)
  let s := jsXor (jsXor (gx * 73856093) (gy * 19349663)) (seed + 7)
  let r1 := valueNoise2D (gx * 0.1) (gy * 0.1) (s + 1)
  let r2 := valueNoise2D (gx * 0.1) (gy * 0.1) (s + 2)
  let cx := (gx + 0.5) * cell + (r1 - 0.5) * cell * 0.35
  let cy := (gy + 0.5) * cell + (r2 - 0.5) * cell * 0.35
  let dx := x - cx
  let dy := y - cy
  Real.sqrt (dx * dx + dy * dy)
/-- ombre branch of maskForTech (source lines 242-244). -/
def maskOmbre (x y w h scale seed : ℝ) : ℝ :=
  let ny := y / max 1 h
  clamp01 (ny * fabricGrainOf x y w h scale seed)

/-- dipDye branch of maskForTech (source lines 246-251). -/
def maskDipDye (x y w h scale seed : ℝ) : ℝ :=
  let nx := x / max 1 w
  let ny := y / max 1 h
  let fiber := valueNoise2D (nx * 60 * scale) (ny * 60 * scale) (seed + 11)
  let edge := 0.55 + 0.06 * (fiber - 0.5)
  let v : ℝ := if ny > edge then 1 else 0
  let bleed := clamp01 ((ny - edge) * 10)
  clamp01 ((0.2 * v + 0.8 * bleed) * fabricGrainOf x y w h scale seed)

/-- tieDyeSpiral branch of maskForTech (source lines 253-264). -/
def maskTieDyeSpiral (x y w h scale seed : ℝ) : ℝ :=
  let nx := x / max 1 w
  let ny := y / max 1 h
  let cx : ℝ := 0.5
  let cy : ℝ := 0.5
  let dx := nx - cx
  let dy := ny - cy
  let r := Real.sqrt (dx * dx + dy * dy)
  let a := atan2 dy dx
  let t := a * 3 + r * 18 * scale
  let ring := (Real.sin t + 1) / 2
  let resist : ℝ := if ring > 0.72 then 0.15 else 1.0
  clamp01 (resist * fabricGrainOf x y w h scale seed)

/-- bandhaniDots branch of maskForTech (source lines 266-287). -/
def maskBandhaniDots (x y w h scale seed : ℝ) : ℝ :=
  let cell := bandhaniCell scale
  let d := bandhaniD x y scale seed
  if d < cell * 0.11 then 0.06
  else if d < cell * 0.19 then 0.35
  else clamp01 (1.0 * fabricGrainOf x y w h scale seed)

/-- leheriya branch of maskForTech (source lines 289-295). -/
def maskLeheriya (x y w h scale seed : ℝ) : ℝ :=
  let nx := x / max 1 w
  let ny := y / max 1 h
  let freq := 14 * scale
  let t := (nx + ny) * freq * Real.pi * 2
  let wave := (Real.sin t + 1) / 2
  let band : ℝ := if wave > 0.55 then 1 else 0.25
  clamp01 (band * fabricGrainOf x y w h scale seed)

/-- shiboriItajime branch of maskForTech (source lines 297-305). -/
def maskShiboriItajime (x y w h scale seed : ℝ) : ℝ :=
  let cell := max 26 (120 * (1 / max 0.25 scale))
  let u := jsMod x cell / cell
  let v := jsMod y cell / cell
  let d := min (min u v) (min (1 - u) (1 - v))
  let core : ℝ := if d > 0.22 then 0.18 else 1.0
  let edgeBleed := clamp01 (1 - |d - 0.22| * 10)
  clamp01 ((core + 0.15 * edgeBleed) * fabricGrainOf x y w h scale seed)

/-- shiboriArashi branch of maskForTech (source lines 307-314). -/
def maskShiboriArashi (x y w h scale seed : ℝ) : ℝ :=
  let nx := x / max 1 w
  let ny := y / max 1 h
  let fiber := valueNoise2D (nx * 60 * scale) (ny * 60 * scale) (seed + 11)
  let freq := 0.05 * scale
  let t := x * freq + y * freq * 0.7
  let stripe := (Real.sin t + 1) / 2
  let hard : ℝ := if stripe > 0.58 then 1 else 0.22
  let rough := 0.9 + 0.1 * (fiber - 0.5)
  clamp01 (hard * rough * fabricGrainOf x y w h scale seed)

/-- shiboriKumo branch of maskForTech (source lines 316-325). -/
def maskShiboriKumo (x y w h scale seed : ℝ) : ℝ :=
  let nx := x / max 1 w
  let ny := y / max 1 h
  let fiber := valueNoise2D (nx * 60 * scale) (ny * 60 * scale) (seed + 11)
  let fiber2 := valueNoise2D (nx * 140 * scale) (ny * 140 * scale) (seed + 29)
  let cx := 0.5 + 0.12 * (fiber - 0.5)
  let cy := 0.5 + 0.12 * (fiber2 - 0.5)
  let dx := nx - cx
  let dy := ny - cy
  let r := Real.sqrt (dx * dx + dy * dy)
  let rings := Real.sin (r * 40 * scale) * 0.5 + 0.5
  let resist : ℝ := if rings > 0.72 then 0.2 else 1.0
  clamp01 (resist * fabricGrainOf x y w h scale seed)

/-- shiboriNui branch of maskForTech (source lines 327-331). -/
def maskShiboriNui (x y w h scale seed : ℝ) : ℝ :=
  let nx := x / max 1 w
  let ny := y / max 1 h
  let fiber := valueNoise2D (nx * 60 * scale) (ny * 60 * scale) (seed + 11)
  let line := Real.sin ((ny * 26 * scale + 0.2 * fiber) * Real.pi * 2) * 0.5 + 0.5
  let resist : ℝ := if line > 0.62 then 0.25 else 1.0
  clamp01 (resist * fabricGrainOf x y w h scale seed)

/-- shiboriKanoko branch of maskForTech (source lines 333-338). -/
def maskShiboriKanoko (x y w h scale seed : ℝ) : ℝ :=
  let nx := x / max 1 w
  let ny := y / max 1 h
  let fiber := valueNoise2D (nx * 60 * scale) (ny * 60 * scale) (seed + 11)
  let n := valueNoise2D (nx * 10 * scale) (ny * 10 * scale) (seed + 99)
  let spots : ℝ := if n > 0.62 then 0.2 else 1.0
  let bleed := 0.85 + 0.15 * fiber
  clamp01 (spots * bleed * fabricGrainOf x y w h scale seed)

/-- batikCrackle branch of maskForTech (source lines 340-347). -/
def maskBatikCrackle (x y w h scale seed : ℝ) : ℝ :=
  let nx := x / max 1 w
  let ny := y / max 1 h
  let n1 := valueNoise2D (nx * 16 * scale) (ny * 16 * scale) (seed + 123)
  let n2 := valueNoise2D (nx * 32 * scale) (ny * 32 * scale) (seed + 321)
  let n := 0.6 * n1 + 0.4 * n2
  let vein := |n - 0.5|
  let resist : ℝ := if vein < 0.04 then 0.15 else 1.0
  clamp01 (resist * fabricGrainOf x y w h scale seed)

/-- batikFloral branch of maskForTech (source lines 349-354). -/
def maskBatikFloral (x y w h scale seed : ℝ) : ℝ :=
  let nx := x / max 1 w
  let ny := y / max 1 h
  let t := Real.sin (nx * 10 * scale * Real.pi * 2) * Real.cos (ny * 8 * scale * Real.pi * 2)
  let petal := |t|
  let resist : ℝ := if petal > 0.72 then 0.22 else 1.0
  clamp01 (resist * fabricGrainOf x y w h scale seed)

/-- ikatWarp branch of maskForTech (source lines 356-361). -/
def maskIkatWarp (x y w h scale seed : ℝ) : ℝ :=
  let nx := x / max 1 w
  let ny := y / max 1 h
  let fiber := valueNoise2D (nx * 60 * scale) (ny * 60 * scale) (seed + 11)
  let band := Real.sin (nx * 18 * scale * Real.pi * 2) * 0.5 + 0.5
  let soft := 0.35 + 0.65 * band
  let fray := 0.9 + 0.1 * (fiber - 0.5)
  clamp01 (soft * fray * fabricGrainOf x y w h scale seed)

/-- ikatWeft branch of maskForTech (source lines 363-368). -/
def maskIkatWeft (x y w h scale seed : ℝ) : ℝ :=
  let nx := x / max 1 w
  let ny := y / max 1 h
  let fiber2 := valueNoise2D (nx * 140 * scale) (ny * 140 * scale) (seed + 29)
  let band := Real.sin (ny * 16 * scale * Real.pi * 2) * 0.5 + 0.5
  let soft := 0.35 + 0.65 * band
  let fray := 0.9 + 0.1 * (fiber2 - 0.5)
  clamp01 (soft * fray * fabricGrainOf x y w h scale seed)

/-- spaceDye branch of maskForTech (source lines 370-375). -/
def maskSpaceDye (x y w h scale seed : ℝ) : ℝ :=
  let nx := x / max 1 w
  let ny := y / max 1 h
  let t := (nx * 22 + ny * 10) * scale
  let run := valueNoise2D t (ny * 6 * scale) (seed + 777)
  let streak := clamp01 (0.25 + 0.9 * run)
  clamp01 (streak * fabricGrainOf x y w h scale seed)

/-- maskForTech from the source (lines 234-378): sequential string
comparison over the 15 technique keys, falling through to the bare
fabric-grain factor for any other string.  Each branch body is held (with
the shared `nx`, `ny`, `fiber`, `fiber2`, `fabricGrain` prelude inlined)
by the corresponding `mask...` definition above. -/
def maskForTech (tech : String) (x y w h scale seed : ℝ) : ℝ :=
  if tech = "ombre" then maskOmbre x y w h scale seed
  else if tech = "dipDye" then maskDipDye x y w h scale seed
  else if tech = "tieDyeSpiral" then maskTieDyeSpiral x y w h scale seed
  else if tech = "bandhaniDots" then maskBandhaniDots x y w h scale seed
  else if tech = "leheriya" then maskLeheriya x y w h scale seed
  else if tech = "shiboriItajime" then maskShiboriItajime x y w h scale seed
  else if tech = "shiboriArashi" then maskShiboriArashi x y w h scale seed
  else if tech = "shiboriKumo" then maskShiboriKumo x y w h scale seed
  else if tech = "shiboriNui" then maskShiboriNui x y w h scale seed
  else if tech = "shiboriKanoko" then maskShiboriKanoko x y w h scale seed
  else if tech = "batikCrackle" then maskBatikCrackle x y w h scale seed
  else if tech = "batikFloral" then maskBatikFloral x y w h scale seed
  else if tech = "ikatWarp" then maskIkatWarp x y w h scale seed
  else if tech = "ikatWeft" then maskIkatWeft x y w h scale seed
  else if tech = "spaceDye" then maskSpaceDye x y w h scale seed
  else fabricGrainOf x y w h scale seed

/-- The 15 technique keys of the `TECHS` table, in source order. -/
def techKeys : List String :=
  ["ombre", "dipDye", "tieDyeSpiral", "bandhaniDots", "leheriya",
   "shiboriItajime", "shiboriArashi", "shiboriKumo", "shiboriNui",
   "shiboriKanoko", "batikCrackle", "batikFloral", "ikatWarp", "ikatWeft",
   "spaceDye"]

/-- Modelled from the spec (§4.2): technique-specific resist value of the
ombre technique, the factor claim C3 asserts is multiplied by the
fabric-grain factor. -/
def specResistOmbre (x y w h scale seed : ℝ) : ℝ :=
  let ny := y / max 1 h
  ny

/-- Modelled from the spec (§4.2): resist value of dipDye. -/
def specResistDipDye (x y w h scale seed : ℝ) : ℝ :=
  let nx := x / max 1 w
  let ny := y / max 1 h
  let fiber := valueNoise2D (nx * 60 * scale) (ny * 60 * scale) (seed + 11)
  let edge := 0.55 + 0.06 * (fiber - 0.5)
  let v : ℝ := if ny > edge then 1 else 0
  let bleed := clamp01 ((ny - edge) * 10)
  0.2 * v + 0.8 * bleed

/-- Modelled from the spec (§4.2): resist value of tieDyeSpiral. -/
def specResistTieDyeSpiral (x y w h scale seed : ℝ) : ℝ :=
  let nx := x / max 1 w
  let ny := y / max 1 h
  let cx : ℝ := 0.5
  let cy : ℝ := 0.5
  let dx := nx - cx
  let dy := ny - cy
  let r := Real.sqrt (dx * dx + dy * dy)
  let a := atan2 dy dx
  let t := a * 3 + r * 18 * scale
  let ring := (Real.sin t + 1) / 2
  if ring > 0.72 then 0.15 else 1.0

/-- Modelled from the spec (§4.2): resist value of bandhaniDots per the
spec's table — dot interior 0.06, halo 0.35, else fully dyed. -/
def specResistBandhaniDots (x y w h scale seed : ℝ) : ℝ :=
  let cell := bandhaniCell scale
  let d := bandhaniD x y scale seed
  if d < cell * 0.11 then 0.06
  else if d < cell * 0.19 then 0.35
  else 1.0

/-- Modelled from the spec (§4.2): resist value of leheriya. -/
def specResistLeheriya (x y w h scale seed : ℝ) : ℝ :=
  let nx := x / max 1 w
  let ny := y / max 1 h
  let freq := 14 * scale
  let t := (nx + ny) * freq * Real.pi * 2
  let wave := (Real.sin t + 1) / 2
  if wave > 0.55 then (1 : ℝ) else 0.25

/-- Modelled from the spec (§4.2): resist value of shiboriItajime. -/
def specResistShiboriItajime (x y w h scale seed : ℝ) : ℝ :=
  let cell := max 26 (120 * (1 / max 0.25 scale))
  let u := jsMod x cell / cell
  let v := jsMod y cell / cell
  let d := min (min u v) (min (1 - u) (1 - v))
  let core : ℝ := if d > 0.22 then 0.18 else 1.0
  let edgeBleed := clamp01 (1 - |d - 0.22| * 10)
  core + 0.15 * edgeBleed

/-- Modelled from the spec (§4.2): resist value of shiboriArashi. -/
def specResistShiboriArashi (x y w h scale seed : ℝ) : ℝ :=
  let nx := x / max 1 w
  let ny := y / max 1 h
  let fiber := valueNoise2D (nx * 60 * scale) (ny * 60 * scale) (seed + 11)
  let freq := 0.05 * scale
  let t := x * freq + y * freq * 0.7
  let stripe := (Real.sin t + 1) / 2
  let hard : ℝ := if stripe > 0.58 then 1 else 0.22
  let rough := 0.9 + 0.1 * (fiber - 0.5)
  hard * rough

/-- Modelled from the spec (§4.2): resist value of shiboriKumo. -/
def specResistShiboriKumo (x y w h scale seed : ℝ) : ℝ :=
  let nx := x / max 1 w
  let ny := y / max 1 h
  let fiber := valueNoise2D (nx * 60 * scale) (ny * 60 * scale) (seed + 11)
  let fiber2 := valueNoise2D (nx * 140 * scale) (ny * 140 * scale) (seed + 29)
  let cx := 0.5 + 0.12 * (fiber - 0.5)
  let cy := 0.5 + 0.12 * (fiber2 - 0.5)
  let dx := nx - cx
  let dy := ny - cy
  let r := Real.sqrt (dx * dx + dy * dy)
  let rings := Real.sin (r * 40 * scale) * 0.5 + 0.5
  if rings > 0.72 then (0.2 : ℝ) else 1.0

/-- Modelled from the spec (§4.2): resist value of shiboriNui. -/
def specResistShiboriNui (x y w h scale seed : ℝ) : ℝ :=
  let nx := x / max 1 w
  let ny := y / max 1 h
  let fiber := valueNoise2D (nx * 60 * scale) (ny * 60 * scale) (seed + 11)
  let line := Real.sin ((ny * 26 * scale + 0.2 * fiber) * Real.pi * 2) * 0.5 + 0.5
  if line > 0.62 then (0.25 : ℝ) else 1.0

/-- Modelled from the spec (§4.2): resist value of shiboriKanoko. -/
def specResistShiboriKanoko (x y w h scale seed : ℝ) : ℝ :=
  let nx := x / max 1 w
  let ny := y / max 1 h
  let fiber := valueNoise2D (nx * 60 * scale) (ny * 60 * scale) (seed + 11)
  let n := valueNoise2D (nx * 10 * scale) (ny * 10 * scale) (seed + 99)
  let spots : ℝ := if n > 0.62 then 0.2 else 1.0
  let bleed := 0.85 + 0.15 * fiber
  spots * bleed

/-- Modelled from the spec (§4.2): resist value of batikCrackle. -/
def specResistBatikCrackle (x y w h scale seed : ℝ) : ℝ :=
  let nx := x / max 1 w
  let ny := y / max 1 h
  let n1 := valueNoise2D (nx * 16 * scale) (ny * 16 * scale) (seed + 123)
  let n2 := valueNoise2D (nx * 32 * scale) (ny * 32 * scale) (seed + 321)
  let n := 0.6 * n1 + 0.4 * n2
  let vein := |n - 0.5|
  if vein < 0.04 then (0.15 : ℝ) else 1.0

/-- Modelled from the spec (§4.2): resist value of batikFloral. -/
def specResistBatikFloral (x y w h scale seed : ℝ) : ℝ :=
  let nx := x / max 1 w
  let ny := y / max 1 h
  let t := Real.sin (nx * 10 * scale * Real.pi * 2) * Real.cos (ny * 8 * scale * Real.pi * 2)
  let petal := |t|
  if petal > 0.72 then (0.22 : ℝ) else 1.0

/-- Modelled from the spec (§4.2): resist value of ikatWarp. -/
def specResistIkatWarp (x y w h scale seed : ℝ) : ℝ :=
  let nx := x / max 1 w
  let ny := y / max 1 h
  let fiber := valueNoise2D (nx * 60 * scale) (ny * 60 * scale) (seed + 11)
  let band := Real.sin (nx * 18 * scale * Real.pi * 2) * 0.5 + 0.5
  let soft := 0.35 + 0.65 * band
  let fray := 0.9 + 0.1 * (fiber - 0.5)
  soft * fray

/-- Modelled from the spec (§4.2): resist value of ikatWeft. -/
def specResistIkatWeft (x y w h scale seed : ℝ) : ℝ :=
  let nx := x / max 1 w
  let ny := y / max 1 h
  let fiber2 := valueNoise2D (nx * 140 * scale) (ny * 140 * scale) (seed + 29)
  let band := Real.sin (ny * 16 * scale * Real.pi * 2) * 0.5 + 0.5
  let soft := 0.35 + 0.65 * band
  let fray := 0.9 + 0.1 * (fiber2 - 0.5)
  soft * fray

/-- Modelled from the spec (§4.2): resist value of spaceDye. -/
def specResistSpaceDye (x y w h scale seed : ℝ) : ℝ :=
  let nx := x / max 1 w
  let ny := y / max 1 h
  let t := (nx * 22 + ny * 10) * scale
  let run := valueNoise2D t (ny * 6 * scale) (seed + 777)
  clamp01 (0.25 + 0.9 * run)

/-- Modelled from the spec (§4.2): the technique-specific resist value
dispatched over the 15 technique keys (1 outside the enumeration, where
the claim does not apply). -/
def specResist (tech : String) (x y w h scale seed : ℝ) : ℝ :=
  if tech = "ombre" then specResistOmbre x y w h scale seed
  else if tech = "dipDye" then specResistDipDye x y w h scale seed
  else if tech = "tieDyeSpiral" then specResistTieDyeSpiral x y w h scale seed
  else if tech = "bandhaniDots" then specResistBandhaniDots x y w h scale seed
  else if tech = "leheriya" then specResistLeheriya x y w h scale seed
  else if tech = "shiboriItajime" then specResistShiboriItajime x y w h scale seed
  else if tech = "shiboriArashi" then specResistShiboriArashi x y w h scale seed
  else if tech = "shiboriKumo" then specResistShiboriKumo x y w h scale seed
  else if tech = "shiboriNui" then specResistShiboriNui x y w h scale seed
  else if tech = "shiboriKanoko" then specResistShiboriKanoko x y w h scale seed
  else if tech = "batikCrackle" then specResistBatikCrackle x y w h scale seed
  else if tech = "batikFloral" then specResistBatikFloral x y w h scale seed
  else if tech = "ikatWarp" then specResistIkatWarp x y w h scale seed
  else if tech = "ikatWeft" then specResistIkatWeft x y w h scale seed
  else if tech = "spaceDye" then specResistSpaceDye x y w h scale seed
  else 1

/-! Bounds for the grain factor and the masks. -/

theorem grainExpr_mem {f1 f2 : ℝ} (h1 : 0 ≤ f1 ∧ f1 < 1) (h2 : 0 ≤ f2 ∧ f2 < 1) :
    0.85 ≤ 0.85 + 0.15 * (0.6 * f1 + 0.4 * f2) ∧
      0.85 + 0.15 * (0.6 * f1 + 0.4 * f2) < 1 := by
  constructor <;> nlinarith [h1.1, h1.2, h2.1, h2.2]

theorem fabricGrainOf_mem (x y w h scale seed : ℝ) :
    0.85 ≤ fabricGrainOf x y w h scale seed ∧ fabricGrainOf x y w h scale seed < 1 := by
  simp only [fabricGrainOf]
  exact grainExpr_mem (valueNoise2D_mem _ _ _) (valueNoise2D_mem _ _ _)

theorem maskBandhaniDots_mem (x y w h scale seed : ℝ) :
    0 ≤ maskBandhaniDots x y w h scale seed ∧ maskBandhaniDots x y w h scale seed ≤ 1 := by
  simp only [maskBandhaniDots]
  split_ifs <;> first | exact clamp01_mem _ | norm_num

theorem maskOmbre_mem (x y w h scale seed : ℝ) :
    0 ≤ maskOmbre x y w h scale seed ∧ maskOmbre x y w h scale seed ≤ 1 := by
  simp only [maskOmbre]
  exact clamp01_mem _

theorem maskDipDye_mem (x y w h scale seed : ℝ) :
    0 ≤ maskDipDye x y w h scale seed ∧ maskDipDye x y w h scale seed ≤ 1 := by
  simp only [maskDipDye]
  exact clamp01_mem _

theorem maskTieDyeSpiral_mem (x y w h scale seed : ℝ) :
    0 ≤ maskTieDyeSpiral x y w h scale seed ∧ maskTieDyeSpiral x y w h scale seed ≤ 1 := by
  simp only [maskTieDyeSpiral]
  exact clamp01_mem _

theorem maskLeheriya_mem (x y w h scale seed : ℝ) :
    0 ≤ maskLeheriya x y w h scale seed ∧ maskLeheriya x y w h scale seed ≤ 1 := by
  simp only [maskLeheriya]
  exact clamp01_mem _

theorem maskShiboriItajime_mem (x y w h scale seed : ℝ) :
    0 ≤ maskShiboriItajime x y w h scale seed ∧ maskShiboriItajime x y w h scale seed ≤ 1 := by
  simp only [maskShiboriItajime]
  exact clamp01_mem _

theorem maskShiboriArashi_mem (x y w h scale seed : ℝ) :
    0 ≤ maskShiboriArashi x y w h scale seed ∧ maskShiboriArashi x y w h scale seed ≤ 1 := by
  simp only [maskShiboriArashi]
  exact clamp01_mem _

theorem maskShiboriKumo_mem (x y w h scale seed : ℝ) :
    0 ≤ maskShiboriKumo x y w h scale seed ∧ maskShiboriKumo x y w h scale seed ≤ 1 := by
  simp only [maskShiboriKumo]
  exact clamp01_mem _

theorem maskShiboriNui_mem (x y w h scale seed : ℝ) :
    0 ≤ maskShiboriNui x y w h scale seed ∧ maskShiboriNui x y w h scale seed ≤ 1 := by
  simp only [maskShiboriNui]
  exact clamp01_mem _

theorem maskShiboriKanoko_mem (x y w h scale seed : ℝ) :
    0 ≤ maskShiboriKanoko x y w h scale seed ∧ maskShiboriKanoko x y w h scale seed ≤ 1 := by
  simp only [maskShiboriKanoko]
  exact clamp01_mem _

theorem maskBatikCrackle_mem (x y w h scale seed : ℝ) :
    0 ≤ maskBatikCrackle x y w h scale seed ∧ maskBatikCrackle x y w h scale seed ≤ 1 := by
  simp only [maskBatikCrackle]
  exact clamp01_mem _

theorem maskBatikFloral_mem (x y w h scale seed : ℝ) :
    0 ≤ maskBatikFloral x y w h scale seed ∧ maskBatikFloral x y w h scale seed ≤ 1 := by
  simp only [maskBatikFloral]
  exact clamp01_mem _

theorem maskIkatWarp_mem (x y w h scale seed : ℝ) :
    0 ≤ maskIkatWarp x y w h scale seed ∧ maskIkatWarp x y w h scale seed ≤ 1 := by
  simp only [maskIkatWarp]
  exact clamp01_mem _

theorem maskIkatWeft_mem (x y w h scale seed : ℝ) :
    0 ≤ maskIkatWeft x y w h scale seed ∧ maskIkatWeft x y w h scale seed ≤ 1 := by
  simp only [maskIkatWeft]
  exact clamp01_mem _

theorem maskSpaceDye_mem (x y w h scale seed : ℝ) :
    0 ≤ maskSpaceDye x y w h scale seed ∧ maskSpaceDye x y w h scale seed ≤ 1 := by
  simp only [maskSpaceDye]
  exact clamp01_mem _

theorem maskForTech_ombre (x y w h scale seed : ℝ) :
    maskForTech "ombre" x y w h scale seed = maskOmbre x y w h scale seed := rfl

theorem maskForTech_dipDye (x y w h scale seed : ℝ) :
    maskForTech "dipDye" x y w h scale seed = maskDipDye x y w h scale seed := rfl

theorem maskForTech_tieDyeSpiral (x y w h scale seed : ℝ) :
    maskForTech "tieDyeSpiral" x y w h scale seed = maskTieDyeSpiral x y w h scale seed := rfl

theorem maskForTech_bandhaniDots (x y w h scale seed : ℝ) :
    maskForTech "bandhaniDots" x y w h scale seed = maskBandhaniDots x y w h scale seed := rfl

theorem maskForTech_leheriya (x y w h scale seed : ℝ) :
    maskForTech "leheriya" x y w h scale seed = maskLeheriya x y w h scale seed := rfl

theorem maskForTech_shiboriItajime (x y w h scale seed : ℝ) :
    maskForTech "shiboriItajime" x y w h scale seed = maskShiboriItajime x y w h scale seed := rfl

theorem maskForTech_shiboriArashi (x y w h scale seed : ℝ) :
    maskForTech "shiboriArashi" x y w h scale seed = maskShiboriArashi x y w h scale seed := rfl

theorem maskForTech_shiboriKumo (x y w h scale seed : ℝ) :
    maskForTech "shiboriKumo" x y w h scale seed = maskShiboriKumo x y w h scale seed := rfl

theorem maskForTech_shiboriNui (x y w h scale seed : ℝ) :
    maskForTech "shiboriNui" x y w h scale seed = maskShiboriNui x y w h scale seed := rfl

theorem maskForTech_shiboriKanoko (x y w h scale seed : ℝ) :
    maskForTech "shiboriKanoko" x y w h scale seed = maskShiboriKanoko x y w h scale seed := rfl

theorem maskForTech_batikCrackle (x y w h scale seed : ℝ) :
    maskForTech "batikCrackle" x y w h scale seed = maskBatikCrackle x y w h scale seed := rfl

theorem maskForTech_batikFloral (x y w h scale seed : ℝ) :
    maskForTech "batikFloral" x y w h scale seed = maskBatikFloral x y w h scale seed := rfl

theorem maskForTech_ikatWarp (x y w h scale seed : ℝ) :
    maskForTech "ikatWarp" x y w h scale seed = maskIkatWarp x y w h scale seed := rfl

theorem maskForTech_ikatWeft (x y w h scale seed : ℝ) :
    maskForTech "ikatWeft" x y w h scale seed = maskIkatWeft x y w h scale seed := rfl

theorem maskForTech_spaceDye (x y w h scale seed : ℝ) :
    maskForTech "spaceDye" x y w h scale seed = maskSpaceDye x y w h scale seed := rfl

/-- Every mask value, for every technique string (known or not), lies in
`[0, 1]`: each branch returns a `clamp01` application, the literal dot
values `0.06` / `0.35`, or the fabric-grain factor. -/
theorem maskForTech_mem (tech : String) (x y w h scale seed : ℝ) :
    0 ≤ maskForTech tech x y w h scale seed ∧ maskForTech tech x y w h scale seed ≤ 1 := by
  have hg := fabricGrainOf_mem x y w h scale seed
  unfold maskForTech
  by_cases h0 : tech = "ombre"
  · rw [if_pos h0]
    exact maskOmbre_mem x y w h scale seed
  rw [if_neg h0]
  by_cases h1 : tech = "dipDye"
  · rw [if_pos h1]
    exact maskDipDye_mem x y w h scale seed
  rw [if_neg h1]
  by_cases h2 : tech = "tieDyeSpiral"
  · rw [if_pos h2]
    exact maskTieDyeSpiral_mem x y w h scale seed
  rw [if_neg h2]
  by_cases h3 : tech = "bandhaniDots"
  · rw [if_pos h3]
    exact maskBandhaniDots_mem x y w h scale seed
  rw [if_neg h3]
  by_cases h4 : tech = "leheriya"
  · rw [if_pos h4]
    exact maskLeheriya_mem x y w h scale seed
  rw [if_neg h4]
  by_cases h5 : tech = "shiboriItajime"
  · rw [if_pos h5]
    exact maskShiboriItajime_mem x y w h scale seed
  rw [if_neg h5]
  by_cases h6 : tech = "shiboriArashi"
  · rw [if_pos h6]
    exact maskShiboriArashi_mem x y w h scale seed
  rw [if_neg h6]
  by_cases h7 : tech = "shiboriKumo"
  · rw [if_pos h7]
    exact maskShiboriKumo_mem x y w h scale seed
  rw [if_neg h7]
  by_cases h8 : tech = "shiboriNui"
  · rw [if_pos h8]
    exact maskShiboriNui_mem x y w h scale seed
  rw [if_neg h8]
  by_cases h9 : tech = "shiboriKanoko"
  · rw [if_pos h9]
    exact maskShiboriKanoko_mem x y w h scale seed
  rw [if_neg h9]
  by_cases h10 : tech = "batikCrackle"
  · rw [if_pos h10]
    exact maskBatikCrackle_mem x y w h scale seed
  rw [if_neg h10]
  by_cases h11 : tech = "batikFloral"
  · rw [if_pos h11]
    exact maskBatikFloral_mem x y w h scale seed
  rw [if_neg h11]
  by_cases h12 : tech = "ikatWarp"
  · rw [if_pos h12]
    exact maskIkatWarp_mem x y w h scale seed
  rw [if_neg h12]
  by_cases h13 : tech = "ikatWeft"
  · rw [if_pos h13]
    exact maskIkatWeft_mem x y w h scale seed
  rw [if_neg h13]
  by_cases h14 : tech = "spaceDye"
  · rw [if_pos h14]
    exact maskSpaceDye_mem x y w h scale seed
  rw [if_neg h14]
  exact ⟨by linarith [hg.1], le_of_lt hg.2⟩

/-! Image model, autocrop, cover-fit sampler and the compositing pipeline. -/

/-- One RGBA pixel with real-valued channels (a `Uint8ClampedArray` entry
holds a byte; real values model the arithmetic the engine performs). -/
@[ext]
structure Pixel where
  r : ℝ
  g : ℝ
  b : ℝ
  a : ℝ

/-- The colour part of a pixel, as `colorDist` consumes it. -/
def Pixel.rgb (p : Pixel) : RGBv := ⟨p.r, p.g, p.b⟩

/-- An in-memory RGBA bitmap: width, height and a pixel function (the
row-major `Uint8ClampedArray` addressed by `getPixel`). -/
@[ext]
structure Img where
  w : ℕ
  h : ℕ
  px : ℕ → ℕ → Pixel

/-- colorDist from the source: euclidean distance of two RGB colours. -/
def colorDist (a b : RGBv) : ℝ :=
  let dr := a.r - b.r
  let dg := a.g - b.g
  let db := a.b - b.b
  Real.sqrt (dr * dr + dg * dg + db * db)

/-- Edge-sampling stride of autocrop:
`Math.max(1, Math.floor(Math.min(w, h) / 60))`. -/
def stepOf (img : Img) : ℕ := max 1 (min img.w img.h / 60)

/-- The sample positions `0, step, 2*step, ...` below `bound` visited by
the `for (let x = 0; x < bound; x += step)` loops. -/
def sampleXs (bound step : ℕ) : List ℕ :=
  (List.range bound).filter (fun x => x % step = 0)

/-- The border samples autocrop collects: for each sampled `x` the pixels
`(x, 0)` and `(x, h-1)`, then for each sampled `y` the pixels `(0, y)` and
`(w-1, y)`. -/
def borderSamples (img : Img) : List Pixel :=
  ((sampleXs img.w (stepOf img)).flatMap
    (fun x => [img.px x 0, img.px x (img.h - 1)])) ++
  ((sampleXs img.h (stepOf img)).flatMap
    (fun y => [img.px 0 y, img.px (img.w - 1) y]))

/-- Average border colour (the background estimate `bg`). -/
def bgOf (img : Img) : RGBv :=
  let s := borderSamples img
  let acc := s.foldl (fun acc p => RGBv.mk (acc.r + p.r) (acc.g + p.g) (acc.b + p.b)) ⟨0, 0, 0⟩
  ⟨acc.r / s.length, acc.g / s.length, acc.b / s.length⟩

/-- rowIsBg from the source: the loop returns `false` exactly when some
sampled pixel of row `y` has `a > 10` and colour distance to `bg` above
`tolerance`; the proposition states that no sampled pixel does. -/
def RowIsBg (img : Img) (bg : RGBv) (tolerance : ℝ) (step : ℕ) (y : ℕ) : Prop :=
  ∀ x ∈ sampleXs img.w step,
    ¬((img.px x y).a > 10 ∧ colorDist (img.px x y).rgb bg > tolerance)

/-- colIsBg from the source, by the same reading. -/
def ColIsBg (img : Img) (bg : RGBv) (tolerance : ℝ) (step : ℕ) (x : ℕ) : Prop :=
  ∀ y ∈ sampleXs img.h step,
    ¬((img.px x y).a > 10 ∧ colorDist (img.px x y).rgb bg > tolerance)

open Classical in
/-- The loop `while (cur < limit && P cur) cur++`. -/
def erodeUp (P : ℕ → Prop) (limit cur : ℕ) : ℕ :=
  if h : cur < limit ∧ P cur then erodeUp P limit (cur + 1) else cur
termination_by limit - cur
decreasing_by omega

open Classical in
/-- The loop `while (cur > lower && P cur) cur--`. -/
def erodeDown (P : ℕ → Prop) (lower cur : ℕ) : ℕ :=
  if h : lower < cur ∧ P cur then erodeDown P lower (cur - 1) else cur
termination_by cur - lower
decreasing_by omega

/-- Final `top` boundary: erode from row 0 while rows are background
(`bottom` still holds its initial value `h - 1` during this loop). -/
def topOf (img : Img) (tolerance : ℝ) : ℕ :=
  erodeUp (RowIsBg img (bgOf img) tolerance (stepOf img)) (img.h - 1) 0

/-- Final `bottom` boundary: erode from row `h - 1` down to `top`. -/
def bottomOf (img : Img) (tolerance : ℝ) : ℕ :=
  erodeDown (RowIsBg img (bgOf img) tolerance (stepOf img)) (topOf img tolerance) (img.h - 1)

/-- Final `left` boundary (`right` still holds `w - 1` during this loop). -/
def leftOf (img : Img) (tolerance : ℝ) : ℕ :=
  erodeUp (ColIsBg img (bgOf img) tolerance (stepOf img)) (img.w - 1) 0

/-- Final `right` boundary: erode from column `w - 1` down to `left`. -/
def rightOf (img : Img) (tolerance : ℝ) : ℕ :=
  erodeDown (ColIsBg img (bgOf img) tolerance (stepOf img)) (leftOf img tolerance) (img.w - 1)

/-- Cropped width `cw = Math.max(1, right - left + 1)`. -/
def cwOf (img : Img) (tolerance : ℝ) : ℕ :=
  max 1 (rightOf img tolerance - leftOf img tolerance + 1)

/-- Cropped height `ch = Math.max(1, bottom - top + 1)`. -/
def chOf (img : Img) (tolerance : ℝ) : ℕ :=
  max 1 (bottomOf img tolerance - topOf img tolerance + 1)

/-- autocropImage from the source (lines 93-178), restricted to its pixel
content: estimate the background colour from sparse edge samples, erode
each side while its border row/column is background, give up (returning
the input) when the crop falls below 25% of either dimension, and
otherwise return the `[left, right] × [top, bottom]` sub-image. -/
def autocropImage (img : Img) (tolerance : ℝ) : Img :=
  if (cwOf img tolerance : ℝ) < (img.w : ℝ) * 0.25 ∨
      (chOf img tolerance : ℝ) < (img.h : ℝ) * 0.25 then
    img
  else
    { w := cwOf img tolerance
      h := chOf img tolerance
      px := fun x y => img.px (leftOf img tolerance + x) (topOf img tolerance + y) }

/-- Scale factor of the cover-fit sampler: `Math.max(w / iw, h / ih)`. -/
def coverS (iw ih w h : ℝ) : ℝ := max (w / iw) (h / ih)

/-- Sample-rectangle width `sw = w / s`. -/
def coverSw (iw ih w h : ℝ) : ℝ := w / coverS iw ih w h

/-- Sample-rectangle height `sh = h / s`. -/
def coverSh (iw ih w h : ℝ) : ℝ := h / coverS iw ih w h

/-- Sample-rectangle left edge `sx = (iw - sw) / 2`. -/
def coverSx (iw ih w h : ℝ) : ℝ := (iw - coverSw iw ih w h) / 2

/-- Sample-rectangle top edge `sy = (ih - sh) / 2`. -/
def coverSy (iw ih w h : ℝ) : ℝ := (ih - coverSh iw ih w h) / 2

/-- The per-pixel loop of applyDyeingEffect (source lines 404-422) as an
image transformation: for each destination pixel, mix the base pixel
toward its dye-tinted colour by `mix = clamp01(intensity * mask)`, and
copy the alpha channel through.  `base` is the cover-drawn working buffer
the loop reads back. -/
def applyDyeingEffect (tech dyeHex : String) (intensity scale seed : ℝ)
    (base : Img) : Img :=
  let dye := hexToRgb dyeHex
  { w := base.w
    h := base.h
    px := fun x y =>
      let p := base.px x y
      let m := maskForTech tech (x : ℝ) (y : ℝ) (base.w : ℝ) (base.h : ℝ) scale seed
      let mix := clamp01 (intensity * m)
      let dyed := dyeTintedColor p.r p.g p.b (dye.1 : ℝ) (dye.2.1 : ℝ) (dye.2.2 : ℝ)
      { r := clamp255 (p.r * (1 - mix) + dyed.r * mix)
        g := clamp255 (p.g * (1 - mix) + dyed.g * mix)
        b := clamp255 (p.b * (1 - mix) + dyed.b * mix)
        a := p.a } }

/-! Claim C2: mask boundedness over the 15 techniques. -/

/-- C2: for every one of the 15 techniques, every pixel coordinate, every
image size, every scale and every seed, the mask function returns a value
in the closed interval `[0, 1]`. -/
theorem mask_bounded_c2 (tech : String) (htech : tech ∈ techKeys)
    (x y w h scale seed : ℝ) :
    0 ≤ maskForTech tech x y w h scale seed ∧
      maskForTech tech x y w h scale seed ≤ 1 :=
  maskForTech_mem tech x y w h scale seed

theorem mask_bounded_c2_witness :
    "ombre" ∈ techKeys ∧
      (0 ≤ maskForTech "ombre" 1 2 4 4 1 2026 ∧
        maskForTech "ombre" 1 2 4 4 1 2026 ≤ 1) :=
  ⟨by decide, mask_bounded_c2 "ombre" (by decide) 1 2 4 4 1 2026⟩

/-! Claim C10: unknown technique strings fall through to the grain. -/

/-- C10: for every technique identifier string outside the 15 enumerated
keys, `maskForTech` raises no error and returns exactly the fabric-grain
factor, a value in `[0.85, 1)`. -/
theorem unknown_tech_c10 (tech : String) (htech : tech ∉ techKeys)
    (x y w h scale seed : ℝ) :
    maskForTech tech x y w h scale seed = fabricGrainOf x y w h scale seed ∧
      0.85 ≤ fabricGrainOf x y w h scale seed ∧
      fabricGrainOf x y w h scale seed < 1 := by
  have hg := fabricGrainOf_mem x y w h scale seed
  refine ⟨?_, hg.1, hg.2⟩
  simp only [techKeys, List.mem_cons, List.not_mem_nil, or_false] at htech
  push_neg at htech
  obtain ⟨n1, n2, n3, n4, n5, n6, n7, n8, n9, n10, n11, n12, n13, n14, n15⟩ := htech
  unfold maskForTech
  rw [if_neg n1, if_neg n2, if_neg n3, if_neg n4, if_neg n5, if_neg n6,
    if_neg n7, if_neg n8, if_neg n9, if_neg n10, if_neg n11, if_neg n12,
    if_neg n13, if_neg n14, if_neg n15]

theorem unknown_tech_c10_witness :
    "plainDye" ∉ techKeys ∧
      (maskForTech "plainDye" 1 2 4 4 1 2026 = fabricGrainOf 1 2 4 4 1 2026 ∧
        0.85 ≤ fabricGrainOf 1 2 4 4 1 2026 ∧ fabricGrainOf 1 2 4 4 1 2026 < 1) :=
  ⟨by decide, unknown_tech_c10 "plainDye" (by decide) 1 2 4 4 1 2026⟩

/-! Claim C7: the cover-fit sample rectangle. -/

/-- C7: for positive source dimensions `(iw, ih)` and destination
dimensions `(w, h)`, the cover-fit sample rectangle lies inside the
source, is centred in it, and its aspect ratio equals the destination
aspect ratio exactly. -/
theorem cover_fit_c7 (iw ih w h : ℝ) (hiw : 0 < iw) (hih : 0 < ih)
    (hw : 0 < w) (hh : 0 < h) :
    0 ≤ coverSx iw ih w h ∧
      coverSx iw ih w h + coverSw iw ih w h ≤ iw ∧
      0 ≤ coverSy iw ih w h ∧
      coverSy iw ih w h + coverSh iw ih w h ≤ ih ∧
      iw - (coverSx iw ih w h + coverSw iw ih w h) = coverSx iw ih w h ∧
      ih - (coverSy iw ih w h + coverSh iw ih w h) = coverSy iw ih w h ∧
      coverSw iw ih w h / coverSh iw ih w h = w / h := by
  have hs : 0 < coverS iw ih w h := lt_of_lt_of_le (div_pos hw hiw) (le_max_left _ _)
  have hsw_pos : 0 < coverSw iw ih w h := div_pos hw hs
  have hsh_pos : 0 < coverSh iw ih w h := div_pos hh hs
  have hsw_le : coverSw iw ih w h ≤ iw := by
    rw [coverSw, div_le_iff hs]
    have h1 : w / iw ≤ coverS iw ih w h := le_max_left _ _
    calc w = iw * (w / iw) := by field_simp
      _ ≤ iw * coverS iw ih w h := mul_le_mul_of_nonneg_left h1 (le_of_lt hiw)
  have hsh_le : coverSh iw ih w h ≤ ih := by
    rw [coverSh, div_le_iff hs]
    have h1 : h / ih ≤ coverS iw ih w h := le_max_right _ _
    calc h = ih * (h / ih) := by field_simp
      _ ≤ ih * coverS iw ih w h := mul_le_mul_of_nonneg_left h1 (le_of_lt hih)
  refine ⟨?_, ?_, ?_, ?_, ?_, ?_, ?_⟩
  · rw [coverSx]; linarith
  · rw [coverSx]; linarith
  · rw [coverSy]; linarith
  · rw [coverSy]; linarith
  · rw [coverSx]; ring
  · rw [coverSy]; ring
  · rw [coverSw, coverSh]
    have hs0 : coverS iw ih w h ≠ 0 := ne_of_gt hs
    have hh0 : h ≠ 0 := ne_of_gt hh
    field_simp

theorem cover_fit_c7_witness :
    (0 < (4:ℝ) ∧ 0 < (3:ℝ) ∧ 0 < (16:ℝ) ∧ 0 < (10:ℝ)) ∧
      (0 ≤ coverSx 4 3 16 10 ∧
        coverSx 4 3 16 10 + coverSw 4 3 16 10 ≤ 4 ∧
        0 ≤ coverSy 4 3 16 10 ∧
        coverSy 4 3 16 10 + coverSh 4 3 16 10 ≤ 3 ∧
        4 - (coverSx 4 3 16 10 + coverSw 4 3 16 10) = coverSx 4 3 16 10 ∧
        3 - (coverSy 4 3 16 10 + coverSh 4 3 16 10) = coverSy 4 3 16 10 ∧
        coverSw 4 3 16 10 / coverSh 4 3 16 10 = 16 / 10) :=
  ⟨⟨by norm_num, by norm_num, by norm_num, by norm_num⟩,
    cover_fit_c7 4 3 16 10 (by norm_num) (by norm_num) (by norm_num) (by norm_num)⟩

/-! Claim C1: the per-pixel compositing formula. -/

/-- Removing the outer clamp from a channel blend whose inputs are already
in range. -/
theorem blendChannel_eq {c T mix : ℝ} (hc0 : 0 ≤ c) (hc1 : c ≤ 255)
    (hT0 : 0 ≤ T) (hT1 : T ≤ 255) (hm0 : 0 ≤ mix) (hm1 : mix ≤ 1) :
    clamp255 (c * (1 - mix) + T * mix) = c * (1 - mix) + T * mix := by
  apply clamp255_of_mem
  · have h1 : 0 ≤ c * (1 - mix) := mul_nonneg hc0 (by linarith)
    have h2 : 0 ≤ T * mix := mul_nonneg hT0 hm0
    linarith
  · have h1 : c * (1 - mix) ≤ 255 * (1 - mix) :=
      mul_le_mul_of_nonneg_right hc1 (by linarith)
    have h2 : T * mix ≤ 255 * mix := mul_le_mul_of_nonneg_right hT1 hm0
    linarith

/-- C1: for every pixel whose base channels are in `[0, 255]`, the
composited output is exactly `base*(1-mix) + tinted*mix` per channel, with
`tinted = dyeChannel * (0.35 + 0.65*L)` clamped to `[0,255]`,
`L = (0.2126*R + 0.7152*G + 0.0722*B)/255` of the base pixel, and
`mix = clamp01(intensity * mask)`; the alpha channel equals the base
pixel's alpha. -/
theorem composite_formula_c1 (base : Img) (tech dyeHex : String)
    (intensity scale seed : ℝ) (x y : ℕ)
    (hr0 : 0 ≤ (base.px x y).r) (hr1 : (base.px x y).r ≤ 255)
    (hg0 : 0 ≤ (base.px x y).g) (hg1 : (base.px x y).g ≤ 255)
    (hb0 : 0 ≤ (base.px x y).b) (hb1 : (base.px x y).b ≤ 255) :
    (applyDyeingEffect tech dyeHex intensity scale seed base).px x y =
      { r := (base.px x y).r *
            (1 - clamp01 (intensity * maskForTech tech x y base.w base.h scale seed)) +
            clamp255 (((hexToRgb dyeHex).1 : ℝ) * (0.35 + 0.65 *
              ((0.2126 * (base.px x y).r + 0.7152 * (base.px x y).g +
                0.0722 * (base.px x y).b) / 255))) *
            clamp01 (intensity * maskForTech tech x y base.w base.h scale seed)
        g := (base.px x y).g *
            (1 - clamp01 (intensity * maskForTech tech x y base.w base.h scale seed)) +
            clamp255 (((hexToRgb dyeHex).2.1 : ℝ) * (0.35 + 0.65 *
              ((0.2126 * (base.px x y).r + 0.7152 * (base.px x y).g +
                0.0722 * (base.px x y).b) / 255))) *
            clamp01 (intensity * maskForTech tech x y base.w base.h scale seed)
        b := (base.px x y).b *
            (1 - clamp01 (intensity * maskForTech tech x y base.w base.h scale seed)) +
            clamp255 (((hexToRgb dyeHex).2.2 : ℝ) * (0.35 + 0.65 *
              ((0.2126 * (base.px x y).r + 0.7152 * (base.px x y).g +
                0.0722 * (base.px x y).b) / 255))) *
            clamp01 (intensity * maskForTech tech x y base.w base.h scale seed)
        a := (base.px x y).a } := by
  have hmix := clamp01_mem (intensity * maskForTech tech x y base.w base.h scale seed)
  simp only [applyDyeingEffect, dyeTintedColor, luminance]
  refine Pixel.ext ?_ ?_ ?_ rfl
  · exact blendChannel_eq hr0 hr1 (clamp255_nonneg _) (clamp255_le _) hmix.1 hmix.2
  · exact blendChannel_eq hg0 hg1 (clamp255_nonneg _) (clamp255_le _) hmix.1 hmix.2
  · exact blendChannel_eq hb0 hb1 (clamp255_nonneg _) (clamp255_le _) hmix.1 hmix.2

/-- A 4-by-4 all-white, fully opaque bitmap. -/
def whiteImg : Img := ⟨4, 4, fun _ _ => ⟨255, 255, 255, 255⟩⟩

theorem composite_formula_c1_witness :
    (0 ≤ (whiteImg.px 0 0).r ∧ (whiteImg.px 0 0).r ≤ 255 ∧
      0 ≤ (whiteImg.px 0 0).g ∧ (whiteImg.px 0 0).g ≤ 255 ∧
      0 ≤ (whiteImg.px 0 0).b ∧ (whiteImg.px 0 0).b ≤ 255) ∧
      (applyDyeingEffect "ombre" "#FF0000" 1 1 0 whiteImg).px 0 0 =
        { r := (whiteImg.px 0 0).r *
              (1 - clamp01 (1 * maskForTech "ombre" ((0:ℕ):ℝ) ((0:ℕ):ℝ) (whiteImg.w:ℝ) (whiteImg.h:ℝ) 1 0)) +
              clamp255 (((hexToRgb "#FF0000").1 : ℝ) * (0.35 + 0.65 *
                ((0.2126 * (whiteImg.px 0 0).r + 0.7152 * (whiteImg.px 0 0).g +
                  0.0722 * (whiteImg.px 0 0).b) / 255))) *
              clamp01 (1 * maskForTech "ombre" ((0:ℕ):ℝ) ((0:ℕ):ℝ) (whiteImg.w:ℝ) (whiteImg.h:ℝ) 1 0)
          g := (whiteImg.px 0 0).g *
              (1 - clamp01 (1 * maskForTech "ombre" ((0:ℕ):ℝ) ((0:ℕ):ℝ) (whiteImg.w:ℝ) (whiteImg.h:ℝ) 1 0)) +
              clamp255 (((hexToRgb "#FF0000").2.1 : ℝ) * (0.35 + 0.65 *
                ((0.2126 * (whiteImg.px 0 0).r + 0.7152 * (whiteImg.px 0 0).g +
                  0.0722 * (whiteImg.px 0 0).b) / 255))) *
              clamp01 (1 * maskForTech "ombre" ((0:ℕ):ℝ) ((0:ℕ):ℝ) (whiteImg.w:ℝ) (whiteImg.h:ℝ) 1 0)
          b := (whiteImg.px 0 0).b *
              (1 - clamp01 (1 * maskForTech "ombre" ((0:ℕ):ℝ) ((0:ℕ):ℝ) (whiteImg.w:ℝ) (whiteImg.h:ℝ) 1 0)) +
              clamp255 (((hexToRgb "#FF0000").2.2 : ℝ) * (0.35 + 0.65 *
                ((0.2126 * (whiteImg.px 0 0).r + 0.7152 * (whiteImg.px 0 0).g +
                  0.0722 * (whiteImg.px 0 0).b) / 255))) *
              clamp01 (1 * maskForTech "ombre" ((0:ℕ):ℝ) ((0:ℕ):ℝ) (whiteImg.w:ℝ) (whiteImg.h:ℝ) 1 0)
          a := (whiteImg.px 0 0).a } :=
  ⟨⟨by norm_num [whiteImg], by norm_num [whiteImg], by norm_num [whiteImg],
      by norm_num [whiteImg], by norm_num [whiteImg], by norm_num [whiteImg]⟩,
    composite_formula_c1 whiteImg "ombre" "#FF0000" 1 1 0 0 0
      (by norm_num [whiteImg]) (by norm_num [whiteImg]) (by norm_num [whiteImg])
      (by norm_num [whiteImg]) (by norm_num [whiteImg]) (by norm_num [whiteImg])⟩

/-! Claims C8 and C9: intensity behaviour and the ombre-on-white scenario. -/

theorem hexFF : hexToRgb "#FF0000" = (255, 0, 0) := by decide

theorem clamp255_le_self (x : ℝ) (hx : 0 ≤ x) : clamp255 x ≤ x :=
  max_le hx (min_le_right _ _)

theorem clamp255_lt (x c : ℝ) (hx : x < c) (hc : 0 < c) : clamp255 x < c :=
  max_lt hc (lt_of_le_of_lt (min_le_right _ _) hx)

theorem clamp01_mono {a b : ℝ} (hab : a ≤ b) : clamp01 a ≤ clamp01 b :=
  max_le_max (le_refl 0) (min_le_min (le_refl 1) hab)

/-- The ombre mask with the clamp resolved: for `y ∈ [0, h]` and `h ≥ 1`
it is exactly `y/h` times the fabric grain. -/
theorem ombre_mask_val (x y w h scale seed : ℝ) (hh : 1 ≤ h) (hy0 : 0 ≤ y)
    (hyh : y ≤ h) :
    maskForTech "ombre" x y w h scale seed =
      y / h * fabricGrainOf x y w h scale seed := by
  rw [maskForTech_ombre]
  simp only [maskOmbre]
  rw [max_eq_right hh]
  have h0 : (0:ℝ) < h := by linarith
  have hfrac0 : 0 ≤ y / h := div_nonneg hy0 (le_of_lt h0)
  have hfrac1 : y / h ≤ 1 := (div_le_one h0).mpr hyh
  have hG := fabricGrainOf_mem x y w h scale seed
  apply clamp01_of_mem
  · exact mul_nonneg hfrac0 (by linarith [hG.1])
  · calc y / h * fabricGrainOf x y w h scale seed ≤ 1 * 1 :=
        mul_le_mul hfrac1 (le_of_lt hG.2) (by linarith [hG.1]) (by norm_num)
    _ = 1 := by norm_num

/-- One blended channel as a function of intensity: monotone toward the
tinted value, bounded between the base and tinted values. -/
theorem blend_mono_channel (c T m i1 i2 : ℝ) (hc0 : 0 ≤ c) (hc1 : c ≤ 255)
    (hT0 : 0 ≤ T) (hT1 : T ≤ 255) (hm0 : 0 ≤ m) (hm1 : m ≤ 1)
    (h10 : 0 ≤ i1) (h12 : i1 ≤ i2) :
    (c ≤ T → clamp255 (c * (1 - clamp01 (i1 * m)) + T * clamp01 (i1 * m)) ≤
        clamp255 (c * (1 - clamp01 (i2 * m)) + T * clamp01 (i2 * m))) ∧
      (T ≤ c → clamp255 (c * (1 - clamp01 (i2 * m)) + T * clamp01 (i2 * m)) ≤
        clamp255 (c * (1 - clamp01 (i1 * m)) + T * clamp01 (i1 * m))) ∧
      min c T ≤ clamp255 (c * (1 - clamp01 (i1 * m)) + T * clamp01 (i1 * m)) ∧
      clamp255 (c * (1 - clamp01 (i1 * m)) + T * clamp01 (i1 * m)) ≤ max c T := by
  have hmm : clamp01 (i1 * m) ≤ clamp01 (i2 * m) :=
    clamp01_mono (mul_le_mul_of_nonneg_right h12 hm0)
  have hx1 := clamp01_mem (i1 * m)
  have hx2 := clamp01_mem (i2 * m)
  have he1 : clamp255 (c * (1 - clamp01 (i1 * m)) + T * clamp01 (i1 * m)) =
      c * (1 - clamp01 (i1 * m)) + T * clamp01 (i1 * m) :=
    blendChannel_eq hc0 hc1 hT0 hT1 hx1.1 hx1.2
  have he2 : clamp255 (c * (1 - clamp01 (i2 * m)) + T * clamp01 (i2 * m)) =
      c * (1 - clamp01 (i2 * m)) + T * clamp01 (i2 * m) :=
    blendChannel_eq hc0 hc1 hT0 hT1 hx2.1 hx2.2
  rw [he1, he2]
  refine ⟨?_, ?_, ?_, ?_⟩
  · intro hcT
    nlinarith [mul_le_mul_of_nonneg_left hmm (sub_nonneg.mpr hcT)]
  · intro hTc
    nlinarith [mul_le_mul_of_nonneg_left hmm (sub_nonneg.mpr hTc)]
  · rcases le_total c T with hcT | hTc
    · rw [min_eq_left hcT]
      nlinarith [mul_le_mul_of_nonneg_right (sub_nonneg.mpr hcT) hx1.1]
    · rw [min_eq_right hTc]
      nlinarith [mul_le_mul_of_nonneg_left hx1.2 (sub_nonneg.mpr hTc),
        sub_nonneg.mpr hTc, hx1.1]
  · rcases le_total c T with hcT | hTc
    · rw [max_eq_right hcT]
      nlinarith [mul_le_mul_of_nonneg_left hx1.2 (sub_nonneg.mpr hcT), hx1.1]
    · rw [max_eq_left hTc]
      nlinarith [mul_le_mul_of_nonneg_right (sub_nonneg.mpr hTc) hx1.1]

/-- The luminance of an in-range pixel lies in `[0, 1]`. -/
theorem luminance_mem {r g b : ℝ} (hr0 : 0 ≤ r) (hr1 : r ≤ 255) (hg0 : 0 ≤ g)
    (hg1 : g ≤ 255) (hb0 : 0 ≤ b) (hb1 : b ≤ 255) :
    0 ≤ luminance r g b ∧ luminance r g b ≤ 1 := by
  unfold luminance
  constructor
  · positivity
  · rw [div_le_one (by norm_num)]
    linarith

/-- The tinted channel never exceeds the dye channel (for an in-range base
pixel and a nonnegative dye channel). -/
theorem tinted_le_dye {r g b d : ℝ} (hr0 : 0 ≤ r) (hr1 : r ≤ 255) (hg0 : 0 ≤ g)
    (hg1 : g ≤ 255) (hb0 : 0 ≤ b) (hb1 : b ≤ 255) (hd : 0 ≤ d) :
    clamp255 (d * (0.35 + 0.65 * luminance r g b)) ≤ d := by
  have hL := luminance_mem hr0 hr1 hg0 hg1 hb0 hb1
  have h1 : 0 ≤ d * (0.35 + 0.65 * luminance r g b) :=
    mul_nonneg hd (by linarith [hL.1])
  calc clamp255 (d * (0.35 + 0.65 * luminance r g b)) ≤
        d * (0.35 + 0.65 * luminance r g b) := clamp255_le_self _ h1
    _ ≤ d * 1 := mul_le_mul_of_nonneg_left (by linarith [hL.2]) hd
    _ = d := mul_one d

/-- C8 amended: for a fixed base pixel with channels in `[0,255]`, fixed
dye colour and fixed mask value, each composited output channel is a
monotone function of intensity moving from the base channel toward the
TINTED channel `dye*(0.35+0.65*L)` (not the raw dye channel), stays
between the base and tinted values, and the tinted channel itself never
exceeds the dye channel — so no channel ever overshoots above the dye
channel, though it can end below it. -/
theorem intensity_monotone_c8 (base : Img) (tech dyeHex : String)
    (scale seed i1 i2 : ℝ) (x y : ℕ) (h10 : 0 ≤ i1) (h12 : i1 ≤ i2)
    (hr0 : 0 ≤ (base.px x y).r) (hr1 : (base.px x y).r ≤ 255)
    (hg0 : 0 ≤ (base.px x y).g) (hg1 : (base.px x y).g ≤ 255)
    (hb0 : 0 ≤ (base.px x y).b) (hb1 : (base.px x y).b ≤ 255) :
    let p := base.px x y
    let T := dyeTintedColor p.r p.g p.b ((hexToRgb dyeHex).1 : ℝ)
      ((hexToRgb dyeHex).2.1 : ℝ) ((hexToRgb dyeHex).2.2 : ℝ)
    let o1 := (applyDyeingEffect tech dyeHex i1 scale seed base).px x y
    let o2 := (applyDyeingEffect tech dyeHex i2 scale seed base).px x y
    ((p.r ≤ T.r → o1.r ≤ o2.r) ∧ (T.r ≤ p.r → o2.r ≤ o1.r) ∧
      min p.r T.r ≤ o1.r ∧ o1.r ≤ max p.r T.r ∧ T.r ≤ ((hexToRgb dyeHex).1 : ℝ)) ∧
    ((p.g ≤ T.g → o1.g ≤ o2.g) ∧ (T.g ≤ p.g → o2.g ≤ o1.g) ∧
      min p.g T.g ≤ o1.g ∧ o1.g ≤ max p.g T.g ∧ T.g ≤ ((hexToRgb dyeHex).2.1 : ℝ)) ∧
    ((p.b ≤ T.b → o1.b ≤ o2.b) ∧ (T.b ≤ p.b → o2.b ≤ o1.b) ∧
      min p.b T.b ≤ o1.b ∧ o1.b ≤ max p.b T.b ∧ T.b ≤ ((hexToRgb dyeHex).2.2 : ℝ)) := by
  intro p T o1 o2
  have hmask := maskForTech_mem tech x y base.w base.h scale seed
  have hTr : T.r = clamp255 (((hexToRgb dyeHex).1 : ℝ) *
      (0.35 + 0.65 * luminance p.r p.g p.b)) := rfl
  have hTg : T.g = clamp255 (((hexToRgb dyeHex).2.1 : ℝ) *
      (0.35 + 0.65 * luminance p.r p.g p.b)) := rfl
  have hTb : T.b = clamp255 (((hexToRgb dyeHex).2.2 : ℝ) *
      (0.35 + 0.65 * luminance p.r p.g p.b)) := rfl
  have hr := blend_mono_channel p.r T.r
    (maskForTech tech x y base.w base.h scale seed) i1 i2 hr0 hr1
    (by rw [hTr]; exact clamp255_nonneg _) (by rw [hTr]; exact clamp255_le _)
    hmask.1 hmask.2 h10 h12
  have hg := blend_mono_channel p.g T.g
    (maskForTech tech x y base.w base.h scale seed) i1 i2 hg0 hg1
    (by rw [hTg]; exact clamp255_nonneg _) (by rw [hTg]; exact clamp255_le _)
    hmask.1 hmask.2 h10 h12
  have hb := blend_mono_channel p.b T.b
    (maskForTech tech x y base.w base.h scale seed) i1 i2 hb0 hb1
    (by rw [hTb]; exact clamp255_nonneg _) (by rw [hTb]; exact clamp255_le _)
    hmask.1 hmask.2 h10 h12
  refine ⟨⟨hr.1, hr.2.1, hr.2.2.1, hr.2.2.2, ?_⟩,
    ⟨hg.1, hg.2.1, hg.2.2.1, hg.2.2.2, ?_⟩,
    ⟨hb.1, hb.2.1, hb.2.2.1, hb.2.2.2, ?_⟩⟩
  · rw [hTr]
    exact tinted_le_dye hr0 hr1 hg0 hg1 hb0 hb1 (Nat.cast_nonneg _)
  · rw [hTg]
    exact tinted_le_dye hr0 hr1 hg0 hg1 hb0 hb1 (Nat.cast_nonneg _)
  · rw [hTb]
    exact tinted_le_dye hr0 hr1 hg0 hg1 hb0 hb1 (Nat.cast_nonneg _)

/-- A 4-by-4 bitmap whose every pixel is the dark red `(200, 0, 0, 255)`. -/
def imgR : Img := ⟨4, 4, fun _ _ => ⟨200, 0, 0, 255⟩⟩

theorem intensity_monotone_c8_witness :
    (0 ≤ (0:ℝ) ∧ (0:ℝ) ≤ 1 ∧
      0 ≤ (imgR.px 0 3).r ∧ (imgR.px 0 3).r ≤ 255 ∧
      0 ≤ (imgR.px 0 3).g ∧ (imgR.px 0 3).g ≤ 255 ∧
      0 ≤ (imgR.px 0 3).b ∧ (imgR.px 0 3).b ≤ 255) ∧
    (let p := imgR.px 0 3
     let T := dyeTintedColor p.r p.g p.b ((hexToRgb "#FF0000").1 : ℝ)
       ((hexToRgb "#FF0000").2.1 : ℝ) ((hexToRgb "#FF0000").2.2 : ℝ)
     let o1 := (applyDyeingEffect "ombre" "#FF0000" 0 1 2026 imgR).px 0 3
     let o2 := (applyDyeingEffect "ombre" "#FF0000" 1 1 2026 imgR).px 0 3
     ((p.r ≤ T.r → o1.r ≤ o2.r) ∧ (T.r ≤ p.r → o2.r ≤ o1.r) ∧
       min p.r T.r ≤ o1.r ∧ o1.r ≤ max p.r T.r ∧ T.r ≤ ((hexToRgb "#FF0000").1 : ℝ)) ∧
     ((p.g ≤ T.g → o1.g ≤ o2.g) ∧ (T.g ≤ p.g → o2.g ≤ o1.g) ∧
       min p.g T.g ≤ o1.g ∧ o1.g ≤ max p.g T.g ∧ T.g ≤ ((hexToRgb "#FF0000").2.1 : ℝ)) ∧
     ((p.b ≤ T.b → o1.b ≤ o2.b) ∧ (T.b ≤ p.b → o2.b ≤ o1.b) ∧
       min p.b T.b ≤ o1.b ∧ o1.b ≤ max p.b T.b ∧ T.b ≤ ((hexToRgb "#FF0000").2.2 : ℝ))) :=
  ⟨⟨by norm_num, by norm_num, by norm_num [imgR], by norm_num [imgR],
      by norm_num [imgR], by norm_num [imgR], by norm_num [imgR], by norm_num [imgR]⟩,
    intensity_monotone_c8 imgR "ombre" "#FF0000" 1 2026 0 1 0 3 (by norm_num)
      (by norm_num) (by norm_num [imgR]) (by norm_num [imgR]) (by norm_num [imgR])
      (by norm_num [imgR]) (by norm_num [imgR]) (by norm_num [imgR])⟩

/-- C8 counterexample: with base pixel `(200, 0, 0)`, dye `#FF0000` and
the ombre mask at the bottom row (mask value above 0.63), the red output
channel at full intensity drops strictly below both the base channel (200)
and the dye channel (255): the output moves away from the dye channel and
does not stay between the base and dye channel values. -/
theorem intensity_monotone_c8_counterexample :
    0 < maskForTech "ombre" 0 3 4 4 1 2026 ∧
      ((applyDyeingEffect "ombre" "#FF0000" 1 1 2026 imgR).px 0 3).r <
        min ((imgR.px 0 3).r) (((hexToRgb "#FF0000").1 : ℝ)) := by
  have hm : maskForTech "ombre" 0 3 4 4 1 2026 =
      3 / 4 * fabricGrainOf 0 3 4 4 1 2026 :=
    ombre_mask_val _ _ _ _ _ _ (by norm_num) (by norm_num) (by norm_num)
  have hG := fabricGrainOf_mem 0 3 4 4 1 2026
  constructor
  · rw [hm]
    nlinarith [hG.1]
  · simp only [applyDyeingEffect, imgR, dyeTintedColor, luminance, hexFF]
    push_cast
    rw [one_mul, hm]
    rw [clamp01_of_mem (3 / 4 * fabricGrainOf 0 3 4 4 1 2026)
      (by nlinarith [hG.1]) (by nlinarith [hG.2])]
    rw [min_eq_left (by norm_num : (200:ℝ) ≤ 255)]
    apply clamp255_lt _ _ _ (by norm_num)
    have hT0 := clamp255_nonneg
      ((255:ℝ) * (0.35 + 0.65 * ((0.2126 * 200 + 0.7152 * 0 + 0.0722 * 0) / 255)))
    have hT1 := clamp255_le_self
      ((255:ℝ) * (0.35 + 0.65 * ((0.2126 * 200 + 0.7152 * 0 + 0.0722 * 0) / 255)))
      (by norm_num)
    have hgpos : (0:ℝ) < 3 / 4 * fabricGrainOf 0 3 4 4 1 2026 := by nlinarith [hG.1]
    nlinarith [mul_lt_mul_of_pos_right
      (show clamp255 ((255:ℝ) * (0.35 + 0.65 * ((0.2126 * 200 + 0.7152 * 0 + 0.0722 * 0) / 255))) - 200 < 0
        by nlinarith [hT1]) hgpos]

/-- Top row of the ombre-on-white scenario: `ny = 0`, so the mask and mix
are exactly 0 and the output pixel is exactly the white base. -/
theorem ombre_white_top (scale seed : ℝ) (x : ℕ) :
    (applyDyeingEffect "ombre" "#FF0000" 1 scale seed whiteImg).px x 0 =
      ⟨255, 255, 255, 255⟩ := by
  have hm : maskForTech "ombre" (x:ℝ) 0 4 4 scale seed =
      0 / 4 * fabricGrainOf (x:ℝ) 0 4 4 scale seed :=
    ombre_mask_val _ _ _ _ _ _ (by norm_num) (by norm_num) (by norm_num)
  simp only [applyDyeingEffect, whiteImg, dyeTintedColor, luminance]
  push_cast
  rw [one_mul, hm]
  norm_num [clamp01, clamp255]

/-- Bottom row of the ombre-on-white scenario: `ny = 3/4`, the mask equals
`3/4` times the fabric grain (so it lies in `[0.6375, 0.75)`), and the
output pixel is `(255, 255*(1-m), 255*(1-m), 255)`. -/
theorem ombre_white_bottom (scale seed : ℝ) (x : ℕ) :
    0.6375 ≤ maskForTech "ombre" (x:ℝ) 3 4 4 scale seed ∧
      maskForTech "ombre" (x:ℝ) 3 4 4 scale seed < 0.75 ∧
      (applyDyeingEffect "ombre" "#FF0000" 1 scale seed whiteImg).px x 3 =
        ⟨255, 255 * (1 - maskForTech "ombre" (x:ℝ) 3 4 4 scale seed),
          255 * (1 - maskForTech "ombre" (x:ℝ) 3 4 4 scale seed), 255⟩ := by
  have hm : maskForTech "ombre" (x:ℝ) 3 4 4 scale seed =
      3 / 4 * fabricGrainOf (x:ℝ) 3 4 4 scale seed :=
    ombre_mask_val _ _ _ _ _ _ (by norm_num) (by norm_num) (by norm_num)
  have hG := fabricGrainOf_mem (x:ℝ) 3 4 4 scale seed
  refine ⟨by rw [hm]; nlinarith [hG.1], by rw [hm]; nlinarith [hG.2], ?_⟩
  simp only [applyDyeingEffect, whiteImg, dyeTintedColor, luminance, hexFF]
  push_cast
  rw [one_mul, hm]
  rw [clamp01_of_mem (3 / 4 * fabricGrainOf (x:ℝ) 3 4 4 scale seed)
    (by nlinarith [hG.1]) (by nlinarith [hG.2])]
  have hL : ((0.2126:ℝ) * 255 + 0.7152 * 255 + 0.0722 * 255) / 255 = 1 := by norm_num
  rw [hL]
  have hTr : clamp255 ((255:ℝ) * (0.35 + 0.65 * 1)) = 255 := by
    norm_num [clamp255, min_def, max_def]
  have hT0 : clamp255 ((0:ℝ) * (0.35 + 0.65 * 1)) = 0 := by
    norm_num [clamp255, min_def, max_def]
  rw [hTr, hT0]
  refine Pixel.ext ?_ ?_ ?_ rfl
  · rw [show (255:ℝ) * (1 - 3 / 4 * fabricGrainOf (x:ℝ) 3 4 4 scale seed) +
        255 * (3 / 4 * fabricGrainOf (x:ℝ) 3 4 4 scale seed) = 255 from by ring]
    norm_num [clamp255, min_def, max_def]
  · rw [show (255:ℝ) * (1 - 3 / 4 * fabricGrainOf (x:ℝ) 3 4 4 scale seed) +
        0 * (3 / 4 * fabricGrainOf (x:ℝ) 3 4 4 scale seed) =
        255 * (1 - 3 / 4 * fabricGrainOf (x:ℝ) 3 4 4 scale seed) from by ring]
    exact clamp255_of_mem _ (by nlinarith [hG.2]) (by nlinarith [hG.1])
  · rw [show (255:ℝ) * (1 - 3 / 4 * fabricGrainOf (x:ℝ) 3 4 4 scale seed) +
        0 * (3 / 4 * fabricGrainOf (x:ℝ) 3 4 4 scale seed) =
        255 * (1 - 3 / 4 * fabricGrainOf (x:ℝ) 3 4 4 scale seed) from by ring]
    exact clamp255_of_mem _ (by nlinarith [hG.2]) (by nlinarith [hG.1])

/-- C9 counterexample: on the 4-by-4 all-white image with ombre,
intensity 1 and dye `#FF0000`, the bottom row has `ny = 3/4`, its mask is
strictly below `0.75` (not ≈ 1), and the green channel of the output stays
above 63 (not ≈ 0): the bottom row is far from the pure dye-tinted red
`(255, 0, 0, 255)` the claim describes. -/
theorem ombre_white_c9_counterexample :
    maskForTech "ombre" 0 3 4 4 1 2026 < 0.75 ∧
      63 < ((applyDyeingEffect "ombre" "#FF0000" 1 1 2026 whiteImg).px 0 3).g := by
  obtain ⟨hml, hmu, hout⟩ := ombre_white_bottom 1 2026 0
  have hc : ((0:ℕ):ℝ) = 0 := by norm_num
  rw [hc] at hml hmu hout
  refine ⟨hmu, ?_⟩
  rw [hout]
  show (63:ℝ) < 255 * (1 - maskForTech "ombre" 0 3 4 4 1 2026)
  nlinarith [hmu]

/-- C9 amended: in the 4-by-4 all-white scenario with ombre, intensity 1
and dye `#FF0000`, every top-row pixel has mask and mix exactly 0 and is
output exactly as the white base; every bottom-row pixel has `ny = 3/4`
(not ≈ 1), mask `3/4 * grain ∈ [0.6375, 0.75)`, and output
`(255, 255*(1-m), 255*(1-m), 255)` — red and alpha fully saturated but
green and blue remain above `63.75`. -/
theorem ombre_white_c9 (scale seed : ℝ) (x : ℕ) :
    (applyDyeingEffect "ombre" "#FF0000" 1 scale seed whiteImg).px x 0 =
        ⟨255, 255, 255, 255⟩ ∧
      0.6375 ≤ maskForTech "ombre" (x:ℝ) 3 4 4 scale seed ∧
      maskForTech "ombre" (x:ℝ) 3 4 4 scale seed < 0.75 ∧
      (applyDyeingEffect "ombre" "#FF0000" 1 scale seed whiteImg).px x 3 =
        ⟨255, 255 * (1 - maskForTech "ombre" (x:ℝ) 3 4 4 scale seed),
          255 * (1 - maskForTech "ombre" (x:ℝ) 3 4 4 scale seed), 255⟩ := by
  obtain ⟨hml, hmu, hout⟩ := ombre_white_bottom scale seed x
  exact ⟨ombre_white_top scale seed x, hml, hmu, hout⟩

/-! Claim C4: the background-row/column classification. -/

/-- C4 amended: during autocrop erosion, a border row (or column) is
classified as background if and only if every sparsely-sampled pixel on it
satisfies `alpha ≤ 10 OR distance ≤ tolerance` — equivalently, no sampled
pixel is both opaque (`alpha > 10`) and farther than tolerance from the
estimated background colour; a row with such an opaque outlier stops the
erosion from that side.  (Transparent pixels count as background no matter
their colour, contrary to the claim's `alpha>10 AND dist ≤ tolerance`.) -/
theorem row_bg_iff_c4 (img : Img) (bg : RGBv) (tolerance : ℝ) (step y xcol : ℕ) :
    (RowIsBg img bg tolerance step y ↔
      ∀ x ∈ sampleXs img.w step,
        ((img.px x y).a > 10 → colorDist (img.px x y).rgb bg ≤ tolerance)) ∧
    (ColIsBg img bg tolerance step xcol ↔
      ∀ yy ∈ sampleXs img.h step,
        ((img.px xcol yy).a > 10 → colorDist (img.px xcol yy).rgb bg ≤ tolerance)) := by
  constructor
  · constructor
    · intro hrow z hz ha
      have h := hrow z hz
      rw [not_and] at h
      exact not_lt.mp (h ha)
    · intro h z hz
      rintro ⟨ha, hd⟩
      exact absurd (h z hz ha) (not_le.mpr hd)
  · constructor
    · intro hcol z hz ha
      have h := hcol z hz
      rw [not_and] at h
      exact not_lt.mp (h ha)
    · intro h z hz
      rintro ⟨ha, hd⟩
      exact absurd (h z hz ha) (not_le.mpr hd)

/-- A 1-by-1 bitmap holding a single fully transparent black pixel. -/
def imgT : Img := ⟨1, 1, fun _ _ => ⟨0, 0, 0, 0⟩⟩

/-- A white background estimate. -/
def bgW : RGBv := ⟨255, 255, 255⟩

/-- C4 counterexample: a row whose only sampled pixel is fully transparent
(`alpha = 0`) and far from the background estimate is classified as
background by the code (the loop only rejects opaque outliers), yet the
claim's condition `alpha>10 AND dist ≤ tolerance` fails at that pixel, so
the claimed equivalence is false. -/
theorem row_bg_c4_counterexample :
    RowIsBg imgT bgW 18 1 0 ∧
      ¬(∀ x ∈ sampleXs imgT.w 1,
        ((imgT.px x 0).a > 10 ∧ colorDist (imgT.px x 0).rgb bgW ≤ 18)) := by
  constructor
  · intro x hx
    rintro ⟨ha, -⟩
    simp only [imgT] at ha
    norm_num at ha
  · intro h
    have hmem : 0 ∈ sampleXs imgT.w 1 := by decide
    have := (h 0 hmem).1
    simp only [imgT] at this
    norm_num at this

/-! Claim C5: autocrop totality and the 25% guard. -/

/-- C5: autocrop signals no error: on any input image with positive
dimensions it returns a bitmap with positive dimensions, and whenever the
eroded crop's width or height falls below 25% of the original dimensions
it returns the original image unchanged instead of the crop. -/
theorem autocrop_guard_c5 (img : Img) (tolerance : ℝ)
    (hw : 1 ≤ img.w) (hh : 1 ≤ img.h) :
    1 ≤ (autocropImage img tolerance).w ∧
      1 ≤ (autocropImage img tolerance).h ∧
      (((cwOf img tolerance : ℝ) < (img.w : ℝ) * 0.25 ∨
          (chOf img tolerance : ℝ) < (img.h : ℝ) * 0.25) →
        autocropImage img tolerance = img) := by
  unfold autocropImage
  split_ifs with hguard
  · exact ⟨hw, hh, fun _ => rfl⟩
  · refine ⟨?_, ?_, fun hcontra => absurd hcontra hguard⟩
    · show 1 ≤ cwOf img tolerance
      rw [cwOf]
      exact le_max_left _ _
    · show 1 ≤ chOf img tolerance
      rw [chOf]
      exact le_max_left _ _

theorem autocrop_guard_c5_witness :
    (1 ≤ imgT.w ∧ 1 ≤ imgT.h) ∧
      (1 ≤ (autocropImage imgT 18).w ∧
        1 ≤ (autocropImage imgT 18).h ∧
        (((cwOf imgT 18 : ℝ) < (imgT.w : ℝ) * 0.25 ∨
            (chOf imgT 18 : ℝ) < (imgT.h : ℝ) * 0.25) →
          autocropImage imgT 18 = imgT)) :=
  ⟨⟨by decide, by decide⟩, autocrop_guard_c5 imgT 18 (by decide) (by decide)⟩

/-! Claim C3: the fabric-grain factorisation of the masks. -/

/-- Evaluation scheme for the corner hash at concrete integer inputs. -/
theorem vnHash_eval (ix iy seed : ℝ) (m : ℤ) (n1 n2 n3 : ℕ)
    (hm : ix * 374761393 + iy * 668265263 + seed * 69069 = (m:ℝ))
    (h1 : (m % 4294967296).toNat = n1)
    (h2 : (Nat.xor n1 (n1 >>> 13)) * 1274126177 % 4294967296 = n2)
    (h3 : Nat.xor n2 (n2 >>> 16) = n3) :
    vnHash ix iy seed = (n3:ℝ) / 4294967296 := by
  simp only [vnHash, jsToUint32]
  rw [hm, Int.floor_intCast, h1, h2, h3]

theorem vnHash_008 : vnHash 0 0 8 = 2400844882 / 4294967296 := by
  rw [vnHash_eval 0 0 8 552552 552552 2400809803 2400844882 (by norm_num)
    (by decide) (by decide) (by decide)]
  norm_num

theorem vnHash_009 : vnHash 0 0 9 = 76048694 / 4294967296 := by
  rw [vnHash_eval 0 0 9 621621 621621 76049854 76048694 (by norm_num)
    (by decide) (by decide) (by decide)]
  norm_num

/-- At the lattice origin the bilinear interpolation degenerates to the
corner hash. -/
theorem valueNoise2D_00 (seed : ℝ) : valueNoise2D 0 0 seed = vnHash 0 0 seed := by
  simp only [valueNoise2D, Int.floor_zero, Int.cast_zero]
  ring_nf

/-- Evaluation scheme for the 32-bit xor at concrete integer inputs. -/
theorem jsXor_eval (a b : ℝ) (ma mb : ℤ) (na nb n : ℕ)
    (hha : a = (ma:ℝ)) (hhb : b = (mb:ℝ))
    (h1 : (ma % 4294967296).toNat = na) (h2 : (mb % 4294967296).toNat = nb)
    (h3 : Nat.xor na nb = n) (hlt : n < 2147483648) :
    jsXor a b = (n:ℝ) := by
  simp only [jsXor, jsToUint32]
  rw [hha, hhb, Int.floor_intCast, Int.floor_intCast, h1, h2, h3, if_pos hlt]

theorem jsXor_00 : jsXor 0 0 = 0 := by
  rw [jsXor_eval 0 0 0 0 0 0 0 (by norm_num) (by norm_num) (by decide)
    (by decide) (by decide) (by decide)]
  norm_num

theorem jsXor_07 : jsXor 0 7 = 7 := by
  rw [jsXor_eval 0 7 0 7 0 7 7 (by norm_num) (by norm_num) (by decide)
    (by decide) (by decide) (by decide)]
  norm_num

theorem bandhaniCell_one : bandhaniCell 1 = 70 := by
  rw [bandhaniCell]
  rw [show (70:ℝ) * (1 / max 0.25 1) = 70 from by
    rw [max_eq_right (by norm_num : (0.25:ℝ) ≤ 1)]
    norm_num]
  exact max_eq_right (by norm_num)

/-- At the chosen point the distance to the jittered bandhaniDots centre
is exactly 0: the point IS the centre of the dot of cell `(0, 0)` for
`scale = 1`, `seed = 0`. -/
theorem bandhaniD_eval :
    bandhaniD (156531205593 / 4294967296) (99573698987 / 4294967296) 1 0 = 0 := by
  simp only [bandhaniD]
  rw [bandhaniCell_one]
  rw [show ⌊(156531205593 / 4294967296 : ℝ) / 70⌋ = 0 from by
    rw [Int.floor_eq_iff] <;> norm_num]
  rw [show ⌊(99573698987 / 4294967296 : ℝ) / 70⌋ = 0 from by
    rw [Int.floor_eq_iff] <;> norm_num]
  push_cast
  rw [show (0:ℝ) * 73856093 = 0 from by ring,
    show (0:ℝ) * 19349663 = 0 from by ring]
  rw [jsXor_00]
  rw [show (0:ℝ) + 7 = 7 from by norm_num]
  rw [jsXor_07]
  rw [show (0:ℝ) * 0.1 = 0 from by ring]
  rw [show (7:ℝ) + 1 = 8 from by norm_num, show (7:ℝ) + 2 = 9 from by norm_num]
  rw [valueNoise2D_00, valueNoise2D_00, vnHash_008, vnHash_009]
  rw [show (156531205593 / 4294967296 : ℝ) -
      ((0 + 0.5) * 70 + (2400844882 / 4294967296 - 0.5) * 70 * 0.35) = 0 from by norm_num]
  rw [show (99573698987 / 4294967296 : ℝ) -
      ((0 + 0.5) * 70 + (76048694 / 4294967296 - 0.5) * 70 * 0.35) = 0 from by norm_num]
  rw [show (0:ℝ) * 0 + 0 * 0 = 0 from by norm_num]
  exact Real.sqrt_zero

theorem maskBandhani_eval :
    maskForTech "bandhaniDots" (156531205593 / 4294967296)
      (99573698987 / 4294967296) 100 100 1 0 = 0.06 := by
  rw [maskForTech_bandhaniDots]
  simp only [maskBandhaniDots]
  rw [bandhaniCell_one, bandhaniD_eval]
  rw [if_pos (by norm_num : (0:ℝ) < 70 * 0.11)]

theorem specResist_ombre (x y w h scale seed : ℝ) :
    specResist "ombre" x y w h scale seed = specResistOmbre x y w h scale seed := rfl

theorem specResist_dipDye (x y w h scale seed : ℝ) :
    specResist "dipDye" x y w h scale seed = specResistDipDye x y w h scale seed := rfl

theorem specResist_tieDyeSpiral (x y w h scale seed : ℝ) :
    specResist "tieDyeSpiral" x y w h scale seed = specResistTieDyeSpiral x y w h scale seed := rfl

theorem specResist_bandhaniDots (x y w h scale seed : ℝ) :
    specResist "bandhaniDots" x y w h scale seed = specResistBandhaniDots x y w h scale seed := rfl

theorem specResist_leheriya (x y w h scale seed : ℝ) :
    specResist "leheriya" x y w h scale seed = specResistLeheriya x y w h scale seed := rfl

theorem specResist_shiboriItajime (x y w h scale seed : ℝ) :
    specResist "shiboriItajime" x y w h scale seed = specResistShiboriItajime x y w h scale seed := rfl

theorem specResist_shiboriArashi (x y w h scale seed : ℝ) :
    specResist "shiboriArashi" x y w h scale seed = specResistShiboriArashi x y w h scale seed := rfl

theorem specResist_shiboriKumo (x y w h scale seed : ℝ) :
    specResist "shiboriKumo" x y w h scale seed = specResistShiboriKumo x y w h scale seed := rfl

theorem specResist_shiboriNui (x y w h scale seed : ℝ) :
    specResist "shiboriNui" x y w h scale seed = specResistShiboriNui x y w h scale seed := rfl

theorem specResist_shiboriKanoko (x y w h scale seed : ℝ) :
    specResist "shiboriKanoko" x y w h scale seed = specResistShiboriKanoko x y w h scale seed := rfl

theorem specResist_batikCrackle (x y w h scale seed : ℝ) :
    specResist "batikCrackle" x y w h scale seed = specResistBatikCrackle x y w h scale seed := rfl

theorem specResist_batikFloral (x y w h scale seed : ℝ) :
    specResist "batikFloral" x y w h scale seed = specResistBatikFloral x y w h scale seed := rfl

theorem specResist_ikatWarp (x y w h scale seed : ℝ) :
    specResist "ikatWarp" x y w h scale seed = specResistIkatWarp x y w h scale seed := rfl

theorem specResist_ikatWeft (x y w h scale seed : ℝ) :
    specResist "ikatWeft" x y w h scale seed = specResistIkatWeft x y w h scale seed := rfl

theorem specResist_spaceDye (x y w h scale seed : ℝ) :
    specResist "spaceDye" x y w h scale seed = specResistSpaceDye x y w h scale seed := rfl

theorem specResistBandhani_eval :
    specResist "bandhaniDots" (156531205593 / 4294967296)
      (99573698987 / 4294967296) 100 100 1 0 = 0.06 := by
  rw [specResist_bandhaniDots]
  simp only [specResistBandhaniDots]
  rw [bandhaniCell_one, bandhaniD_eval]
  rw [if_pos (by norm_num : (0:ℝ) < 70 * 0.11)]

/-- C3 counterexample: at the centre of the bandhaniDots dot of cell
`(0,0)` (scale 1, seed 0) the mask returns the flat constant `0.06`, while
multiplying the spec's resist value `0.06` by the fabric-grain factor
(which is strictly below 1) would give a strictly smaller value — the dot
and halo branches of bandhaniDots do NOT carry the grain factor. -/
theorem grain_factor_c3_counterexample :
    maskForTech "bandhaniDots" (156531205593 / 4294967296)
        (99573698987 / 4294967296) 100 100 1 0 ≠
      clamp01 (specResist "bandhaniDots" (156531205593 / 4294967296)
          (99573698987 / 4294967296) 100 100 1 0 *
        fabricGrainOf (156531205593 / 4294967296)
          (99573698987 / 4294967296) 100 100 1 0) := by
  have hG := fabricGrainOf_mem (156531205593 / 4294967296)
    (99573698987 / 4294967296) 100 100 1 0
  rw [maskBandhani_eval, specResistBandhani_eval]
  rw [clamp01_of_mem (0.06 * fabricGrainOf (156531205593 / 4294967296)
      (99573698987 / 4294967296) 100 100 1 0)
    (by nlinarith [hG.1]) (by nlinarith [hG.2])]
  intro heq
  nlinarith [hG.2]

/-- C3 amended: for every one of the 15 techniques and every input, the
mask is `clamp01` of the technique-specific resist value times the shared
fabric-grain factor — EXCEPT in the two early-return branches of
bandhaniDots (dot interior and halo), which return the flat constants
`0.06` and `0.35` without the grain factor.  Outside the halo
(`d ≥ 0.19*cell`) bandhaniDots follows the factorisation too. -/
theorem grain_factor_c3 (tech : String) (x y w h scale seed : ℝ)
    (htech : tech ∈ techKeys)
    (hb : tech ≠ "bandhaniDots" ∨
      bandhaniCell scale * 0.19 ≤ bandhaniD x y scale seed) :
    maskForTech tech x y w h scale seed =
      clamp01 (specResist tech x y w h scale seed *
        fabricGrainOf x y w h scale seed) := by
  simp only [techKeys, List.mem_cons, List.not_mem_nil, or_false] at htech
  rcases htech with h|h|h|h|h|h|h|h|h|h|h|h|h|h|h <;> subst h
  · rw [maskForTech_ombre, specResist_ombre]; rfl
  · rw [maskForTech_dipDye, specResist_dipDye]; rfl
  · rw [maskForTech_tieDyeSpiral, specResist_tieDyeSpiral]; rfl
  · rcases hb with hne | hout
    · exact absurd rfl hne
    · rw [maskForTech_bandhaniDots, specResist_bandhaniDots]
      simp only [maskBandhaniDots, specResistBandhaniDots]
      have hcell : (0:ℝ) < bandhaniCell scale :=
        lt_of_lt_of_le (by norm_num) (le_max_left 18 _)
      have h1 : ¬(bandhaniD x y scale seed < bandhaniCell scale * 0.11) := by
        rw [not_lt]
        nlinarith [hout, hcell]
      have h2 : ¬(bandhaniD x y scale seed < bandhaniCell scale * 0.19) :=
        not_lt.mpr hout
      rw [if_neg h1, if_neg h2, if_neg h1, if_neg h2]
  · rw [maskForTech_leheriya, specResist_leheriya]; rfl
  · rw [maskForTech_shiboriItajime, specResist_shiboriItajime]; rfl
  · rw [maskForTech_shiboriArashi, specResist_shiboriArashi]; rfl
  · rw [maskForTech_shiboriKumo, specResist_shiboriKumo]; rfl
  · rw [maskForTech_shiboriNui, specResist_shiboriNui]; rfl
  · rw [maskForTech_shiboriKanoko, specResist_shiboriKanoko]; rfl
  · rw [maskForTech_batikCrackle, specResist_batikCrackle]; rfl
  · rw [maskForTech_batikFloral, specResist_batikFloral]; rfl
  · rw [maskForTech_ikatWarp, specResist_ikatWarp]; rfl
  · rw [maskForTech_ikatWeft, specResist_ikatWeft]; rfl
  · rw [maskForTech_spaceDye, specResist_spaceDye]; rfl

theorem grain_factor_c3_witness :
    ("ombre" ∈ techKeys ∧
      ("ombre" ≠ "bandhaniDots" ∨
        bandhaniCell 1 * 0.19 ≤ bandhaniD 1 2 1 0)) ∧
      maskForTech "ombre" 1 2 4 4 1 0 =
        clamp01 (specResist "ombre" 1 2 4 4 1 0 * fabricGrainOf 1 2 4 4 1 0) :=
  ⟨⟨by decide, Or.inl (by decide)⟩,
    grain_factor_c3 "ombre" 1 2 4 4 1 0 (by decide) (Or.inl (by decide))⟩

/-! Claim C6: autocrop idempotence on images with no uniform border. -/

/-- C6: if none of the four border rows/columns of an image is classified
as background (w.r.t. the image's own background estimate, stride and the
given tolerance) — i.e. the image contains no uniform border and a single
autocrop pass already finds nothing to remove — then autocrop returns the
image unchanged (the 25% guard cannot fire since the crop is the full
image). -/
theorem autocrop_idempotent_c6 (img : Img) (tolerance : ℝ)
    (hw : 1 ≤ img.w) (hh : 1 ≤ img.h)
    (htop : ¬RowIsBg img (bgOf img) tolerance (stepOf img) 0)
    (hbot : ¬RowIsBg img (bgOf img) tolerance (stepOf img) (img.h - 1))
    (hleft : ¬ColIsBg img (bgOf img) tolerance (stepOf img) 0)
    (hright : ¬ColIsBg img (bgOf img) tolerance (stepOf img) (img.w - 1)) :
    autocropImage img tolerance = img := by
  have htop0 : topOf img tolerance = 0 := by
    have hcond : ¬(0 < img.h - 1 ∧
        RowIsBg img (bgOf img) tolerance (stepOf img) 0) := fun hc => htop hc.2
    rw [topOf, erodeUp, dif_neg hcond]
  have hbot0 : bottomOf img tolerance = img.h - 1 := by
    have hcond : ¬(topOf img tolerance < img.h - 1 ∧
        RowIsBg img (bgOf img) tolerance (stepOf img) (img.h - 1)) :=
      fun hc => hbot hc.2
    rw [bottomOf, erodeDown, dif_neg hcond]
  have hleft0 : leftOf img tolerance = 0 := by
    have hcond : ¬(0 < img.w - 1 ∧
        ColIsBg img (bgOf img) tolerance (stepOf img) 0) := fun hc => hleft hc.2
    rw [leftOf, erodeUp, dif_neg hcond]
  have hright0 : rightOf img tolerance = img.w - 1 := by
    have hcond : ¬(leftOf img tolerance < img.w - 1 ∧
        ColIsBg img (bgOf img) tolerance (stepOf img) (img.w - 1)) :=
      fun hc => hright hc.2
    rw [rightOf, erodeDown, dif_neg hcond]
  have hcw : cwOf img tolerance = img.w := by
    rw [cwOf, hright0, hleft0]
    omega
  have hch : chOf img tolerance = img.h := by
    rw [chOf, hbot0, htop0]
    omega
  have hw1 : (1:ℝ) ≤ (img.w:ℝ) := by exact_mod_cast hw
  have hh1 : (1:ℝ) ≤ (img.h:ℝ) := by exact_mod_cast hh
  have hguard : ¬((cwOf img tolerance : ℝ) < (img.w : ℝ) * 0.25 ∨
      (chOf img tolerance : ℝ) < (img.h : ℝ) * 0.25) := by
    rw [hcw, hch]
    push_neg
    constructor
    · nlinarith
    · nlinarith
  rw [autocropImage, if_neg hguard, hcw, hch, hleft0, htop0]
  have hpx : (fun x y => img.px (0 + x) (0 + y)) = img.px := by
    funext a b
    rw [Nat.zero_add, Nat.zero_add]
  rw [hpx]

/-- A 2-by-2 opaque checkerboard (black and white), which has no uniform
border: every border row and column holds a black pixel far from the
grey average border colour. -/
def imgC6 : Img :=
  ⟨2, 2, fun x y =>
    if (x + y) % 2 = 0 then ⟨0, 0, 0, 255⟩ else ⟨255, 255, 255, 255⟩⟩

theorem imgC6_step : stepOf imgC6 = 1 := by decide

theorem imgC6_bg : bgOf imgC6 = ⟨127.5, 127.5, 127.5⟩ := by
  have hsx : sampleXs 2 1 = [0, 1] := by decide
  have hsamples : borderSamples imgC6 =
      [⟨0, 0, 0, 255⟩, ⟨255, 255, 255, 255⟩, ⟨255, 255, 255, 255⟩, ⟨0, 0, 0, 255⟩,
       ⟨0, 0, 0, 255⟩, ⟨255, 255, 255, 255⟩, ⟨255, 255, 255, 255⟩, ⟨0, 0, 0, 255⟩] := by
    simp only [borderSamples, imgC6_step, show imgC6.w = 2 from rfl,
      show imgC6.h = 2 from rfl, hsx, List.flatMap_cons, List.flatMap_nil,
      List.append_nil, List.cons_append, List.nil_append]
    norm_num [imgC6]
  simp only [bgOf, hsamples, List.foldl_cons, List.foldl_nil,
    List.length_cons, List.length_nil]
  norm_num [RGBv.mk.injEq]

theorem imgC6_dist_black :
    colorDist (Pixel.rgb ⟨0, 0, 0, 255⟩) ⟨127.5, 127.5, 127.5⟩ > 18 := by
  simp only [Pixel.rgb, colorDist]
  have : ((0:ℝ) - 127.5) * (0 - 127.5) + (0 - 127.5) * (0 - 127.5) +
      (0 - 127.5) * (0 - 127.5) = 48768.75 := by norm_num
  rw [this]
  exact Real.lt_sqrt_of_sq_lt (by norm_num)

theorem imgC6_row0 : ¬RowIsBg imgC6 (bgOf imgC6) 18 (stepOf imgC6) 0 := by
  rw [imgC6_bg, imgC6_step]
  intro hP
  refine hP 0 (by decide) ⟨?_, ?_⟩
  · show (imgC6.px 0 0).a > 10
    norm_num [imgC6]
  · have hpx : imgC6.px 0 0 = ⟨0, 0, 0, 255⟩ := by norm_num [imgC6]
    rw [hpx]
    exact imgC6_dist_black

theorem imgC6_row1 : ¬RowIsBg imgC6 (bgOf imgC6) 18 (stepOf imgC6) (imgC6.h - 1) := by
  rw [imgC6_bg, imgC6_step]
  intro hP
  refine hP 1 (by decide) ⟨?_, ?_⟩
  · show (imgC6.px 1 (imgC6.h - 1)).a > 10
    norm_num [imgC6]
  · have hpx : imgC6.px 1 (imgC6.h - 1) = ⟨0, 0, 0, 255⟩ := by norm_num [imgC6]
    rw [hpx]
    exact imgC6_dist_black

theorem imgC6_col0 : ¬ColIsBg imgC6 (bgOf imgC6) 18 (stepOf imgC6) 0 := by
  rw [imgC6_bg, imgC6_step]
  intro hP
  refine hP 0 (by decide) ⟨?_, ?_⟩
  · show (imgC6.px 0 0).a > 10
    norm_num [imgC6]
  · have hpx : imgC6.px 0 0 = ⟨0, 0, 0, 255⟩ := by norm_num [imgC6]
    rw [hpx]
    exact imgC6_dist_black

theorem imgC6_col1 : ¬ColIsBg imgC6 (bgOf imgC6) 18 (stepOf imgC6) (imgC6.w - 1) := by
  rw [imgC6_bg, imgC6_step]
  intro hP
  refine hP 1 (by decide) ⟨?_, ?_⟩
  · show (imgC6.px (imgC6.w - 1) 1).a > 10
    norm_num [imgC6]
  · have hpx : imgC6.px (imgC6.w - 1) 1 = ⟨0, 0, 0, 255⟩ := by norm_num [imgC6]
    rw [hpx]
    exact imgC6_dist_black

theorem autocrop_idempotent_c6_witness :
    (1 ≤ imgC6.w ∧ 1 ≤ imgC6.h ∧
      ¬RowIsBg imgC6 (bgOf imgC6) 18 (stepOf imgC6) 0 ∧
      ¬RowIsBg imgC6 (bgOf imgC6) 18 (stepOf imgC6) (imgC6.h - 1) ∧
      ¬ColIsBg imgC6 (bgOf imgC6) 18 (stepOf imgC6) 0 ∧
      ¬ColIsBg imgC6 (bgOf imgC6) 18 (stepOf imgC6) (imgC6.w - 1)) ∧
      autocropImage imgC6 18 = imgC6 :=
  ⟨⟨by decide, by decide, imgC6_row0, imgC6_row1, imgC6_col0, imgC6_col1⟩,
    autocrop_idempotent_c6 imgC6 18 (by decide) (by decide) imgC6_row0
      imgC6_row1 imgC6_col0 imgC6_col1⟩

end Dye
